import Mathlib

/-!
Shallow embedding of the bootstrap configuration-resolution layer
(`src/bootstrap/config.rs`): the raw TOML document model with strict
field validation, the `TargetSelection` identity value, and the
`Config::parse` merge pipeline together with its default inference.

External effects are made explicit parameters:
  * environment variables (`BUILD`, `SRC`, ... ) become an `Env` record;
  * the filesystem-existence probe used by `TargetSelection::from_user`
    becomes a boolean-valued function `fs : String → Bool`;
  * `num_cpus::get()` becomes a parameter `numCpus : Nat`.
Interned strings compare equal iff their contents do, so `Interned<String>`
is embedded as `String` itself.
-/

set_option maxHeartbeats 1000000

namespace Bootstrap

/-- Substring test on strings, embedding `str::contains`. -/
def strContains (s needle : String) : Bool :=
  decide (needle.toList <:+: s.toList)

/-- Last non-empty path component, embedding `Path::file_name`. -/
def fileName (path : String) : String :=
  ((((path.splitOn "/").filter (fun c => c ≠ ""))).getLast?).getD path

/-- Base name without the final extension, embedding `Path::file_stem`. -/
def fileStem (path : String) : String :=
  let name := fileName path
  match name.splitOn "." with
  | [] => name
  | [_] => name
  | ["", _] => name
  | parts => String.intercalate "." parts.dropLast

/-- Embedding of `PathBuf::join`: an absolute second component replaces the first. -/
def pathJoin (a b : String) : String :=
  if b.startsWith "/" then b else a ++ "/" ++ b

/-- Embedding of `Config::normalize_python_path`: decompose into components and
reassemble (`Path::components` drops empty components and interior `.`). -/
def normalize_python_path (path : String) : String :=
  let comps := (path.splitOn "/").filter (fun c => c ≠ "" && c ≠ ".")
  if path.startsWith "/" then "/" ++ String.intercalate "/" comps
  else String.intercalate "/" comps

/-- A TOML value as far as this schema needs: strings, booleans,
integers, arrays of strings and tables. -/
inductive TomlValue where
  | vStr : String → TomlValue
  | vBool : Bool → TomlValue
  | vInt : Nat → TomlValue
  | vStrList : List String → TomlValue
  | vTable : List (String × TomlValue) → TomlValue

/-- The text of a configuration document: either syntactically malformed, or a
well-formed top-level table of key/value pairs. -/
inductive DocText where
  | malformed : DocText
  | table : List (String × TomlValue) → DocText

/-- Decoding error taxonomy: syntactically malformed document, a field name
absent from the schema, or a value of the wrong type. -/
inductive DecodeErr where
  | syntaxErr : DecodeErr
  | unknownField : String → DecodeErr
  | typeMismatch : String → DecodeErr
deriving DecidableEq, Repr

/-- Embedding of the `StringOrBool` untagged enum. -/
inductive StringOrBool where
  | string : String → StringOrBool
  | bool : Bool → StringOrBool
deriving DecidableEq, Repr

instance : Inhabited StringOrBool := ⟨StringOrBool.bool false⟩

/-- `[build]` section of the document (struct `Build`). -/
structure Build where
  build : Option String := none
  host : Option (List String) := none
  target : Option (List String) := none
  build_dir : Option String := none
  cargo : Option String := none
  rustc : Option String := none
  rustfmt : Option String := none
  docs : Option Bool := none
  compiler_docs : Option Bool := none
  submodules : Option Bool := none
  fast_submodules : Option Bool := none
  gdb : Option String := none
  nodejs : Option String := none
  python : Option String := none
  locked_deps : Option Bool := none
  vendor : Option Bool := none
  full_bootstrap : Option Bool := none
  extended : Option Bool := none
  tools : Option (List String) := none
  verbose : Option Nat := none
  sanitizers : Option Bool := none
  profiler : Option Bool := none
  cargo_native_static : Option Bool := none
  low_priority : Option Bool := none
  configure_args : Option (List String) := none
  local_rebuild : Option Bool := none
  print_step_timings : Option Bool := none
deriving DecidableEq, Repr

/-- `[install]` section of the document (struct `Install`).  The source field
`prefix` is renamed `prefix_dir` because `prefix` is a Lean keyword. -/
structure Install where
  prefix_dir : Option String := none
  sysconfdir : Option String := none
  docdir : Option String := none
  bindir : Option String := none
  libdir : Option String := none
  mandir : Option String := none
  datadir : Option String := none
  infodir : Option String := none
  localstatedir : Option String := none
deriving DecidableEq, Repr

/-- `[llvm]` section of the document (struct `Llvm`). -/
structure Llvm where
  skip_rebuild : Option Bool := none
  optimize : Option Bool := none
  thin_lto : Option Bool := none
  release_debuginfo : Option Bool := none
  assertions : Option Bool := none
  ccache : Option StringOrBool := none
  version_check : Option Bool := none
  static_libstdcpp : Option Bool := none
  ninja : Option Bool := none
  targets : Option String := none
  experimental_targets : Option String := none
  link_jobs : Option Nat := none
  link_shared : Option Bool := none
  version_suffix : Option String := none
  clang_cl : Option String := none
  cflags : Option String := none
  cxxflags : Option String := none
  ldflags : Option String := none
  use_libcxx : Option Bool := none
  use_linker : Option String := none
  allow_old_toolchain : Option Bool := none
deriving DecidableEq, Repr

/-- `[rust]` section of the document (struct `Rust`). -/
structure Rust where
  optimize : Option Bool := none
  debug : Option Bool := none
  codegen_units : Option Nat := none
  codegen_units_std : Option Nat := none
  debug_assertions : Option Bool := none
  debug_assertions_std : Option Bool := none
  debuginfo_level : Option Nat := none
  debuginfo_level_rustc : Option Nat := none
  debuginfo_level_std : Option Nat := none
  debuginfo_level_tools : Option Nat := none
  debuginfo_level_tests : Option Nat := none
  backtrace : Option Bool := none
  incremental : Option Bool := none
  parallel_compiler : Option Bool := none
  default_linker : Option String := none
  channel : Option String := none
  musl_root : Option String := none
  rpath : Option Bool := none
  verbose_tests : Option Bool := none
  optimize_tests : Option Bool := none
  codegen_tests : Option Bool := none
  ignore_git : Option Bool := none
  dist_src : Option Bool := none
  save_toolstates : Option String := none
  codegen_backends : Option (List String) := none
  lld : Option Bool := none
  use_lld : Option Bool := none
  llvm_tools : Option Bool := none
  deny_warnings : Option Bool := none
  backtrace_on_ice : Option Bool := none
  verify_llvm_ir : Option Bool := none
  thin_lto_import_instr_limit : Option Nat := none
  remap_debuginfo : Option Bool := none
  jemalloc : Option Bool := none
  test_compare_mode : Option Bool := none
  llvm_libunwind : Option Bool := none
  control_flow_guard : Option Bool := none
  new_symbol_mangling : Option Bool := none
deriving DecidableEq, Repr

/-- `[dist]` section of the document (struct `Dist`). -/
structure Dist where
  sign_folder : Option String := none
  gpg_password_file : Option String := none
  upload_addr : Option String := none
  src_tarball : Option Bool := none
  missing_tools : Option Bool := none
deriving DecidableEq, Repr

/-- A `[target.<triple>]` entry of the document (struct `TomlTarget`). -/
structure TomlTarget where
  cc : Option String := none
  cxx : Option String := none
  ar : Option String := none
  ranlib : Option String := none
  linker : Option String := none
  llvm_config : Option String := none
  llvm_filecheck : Option String := none
  android_ndk : Option String := none
  crt_static : Option Bool := none
  musl_root : Option String := none
  musl_libdir : Option String := none
  wasi_root : Option String := none
  qemu_rootfs : Option String := none
  no_std : Option Bool := none
deriving DecidableEq, Repr

/-- Decoded shape of the whole document (struct `TomlConfig`); the `target`
map is kept as an association list in document order. -/
structure TomlConfig where
  build : Option Build := none
  install : Option Install := none
  llvm : Option Llvm := none
  rust : Option Rust := none
  target : Option (List (String × TomlTarget)) := none
  dist : Option Dist := none
deriving DecidableEq, Repr

/-- Decode a TOML value expected to be a string. -/
def decodeStr : TomlValue → Except String String
  | .vStr s => .ok s
  | _ => .error "expected a string"

/-- Decode a TOML value expected to be a boolean. -/
def decodeBool : TomlValue → Except String Bool
  | .vBool b => .ok b
  | _ => .error "expected a boolean"

/-- Decode a TOML value expected to be an integer. -/
def decodeNat : TomlValue → Except String Nat
  | .vInt n => .ok n
  | _ => .error "expected an integer"

/-- Decode a TOML value expected to be an array of strings. -/
def decodeStrList : TomlValue → Except String (List String)
  | .vStrList l => .ok l
  | _ => .error "expected an array of strings"

/-- Decode a TOML value for the untagged `StringOrBool` enum. -/
def decodeStringOrBool : TomlValue → Except String StringOrBool
  | .vStr s => .ok (.string s)
  | .vBool b => .ok (.bool b)
  | _ => .error "expected a string or a boolean"

/-- Decode a TOML value expected to be a table. -/
def asTable : TomlValue → Except DecodeErr (List (String × TomlValue))
  | .vTable kvs => .ok kvs
  | _ => .error (.typeMismatch "expected a table")

/-- Look up the setter for a field name in a section's setter table. -/
def findSetter {σ : Type} (k : String) :
    List (String × (TomlValue → σ → Except String σ)) →
      Option (TomlValue → σ → Except String σ)
  | [] => none
  | (name, f) :: rest => if k = name then some f else findSetter k rest

/-- Apply the key/value pairs of one document section in order to an
accumulating section record, using a table of per-field setters; an
unrecognized field name is a hard `unknownField` error, exactly as
`deny_unknown_fields` prescribes. -/
def applySection {σ : Type} (setters : List (String × (TomlValue → σ → Except String σ))) :
    σ → List (String × TomlValue) → Except DecodeErr σ
  | init, [] => .ok init
  | init, kv :: rest =>
    match findSetter kv.1 setters with
    | some f =>
      match f kv.2 init with
      | .ok s => applySection setters s rest
      | .error e => .error (.typeMismatch e)
    | none => .error (.unknownField kv.1)

/-- Field setters for the `[build]` section: the kebab-case key names accepted
by `#[serde(deny_unknown_fields, rename_all = "kebab-case")]` on `Build`. -/
def buildSetters : List (String × (TomlValue → Build → Except String Build)) :=
  [("build", fun v b => do pure { b with build := some (← decodeStr v) }),
   ("host", fun v b => do pure { b with host := some (← decodeStrList v) }),
   ("target", fun v b => do pure { b with target := some (← decodeStrList v) }),
   ("build-dir", fun v b => do pure { b with build_dir := some (← decodeStr v) }),
   ("cargo", fun v b => do pure { b with cargo := some (← decodeStr v) }),
   ("rustc", fun v b => do pure { b with rustc := some (← decodeStr v) }),
   ("rustfmt", fun v b => do pure { b with rustfmt := some (← decodeStr v) }),
   ("docs", fun v b => do pure { b with docs := some (← decodeBool v) }),
   ("compiler-docs", fun v b => do pure { b with compiler_docs := some (← decodeBool v) }),
   ("submodules", fun v b => do pure { b with submodules := some (← decodeBool v) }),
   ("fast-submodules", fun v b => do pure { b with fast_submodules := some (← decodeBool v) }),
   ("gdb", fun v b => do pure { b with gdb := some (← decodeStr v) }),
   ("nodejs", fun v b => do pure { b with nodejs := some (← decodeStr v) }),
   ("python", fun v b => do pure { b with python := some (← decodeStr v) }),
   ("locked-deps", fun v b => do pure { b with locked_deps := some (← decodeBool v) }),
   ("vendor", fun v b => do pure { b with vendor := some (← decodeBool v) }),
   ("full-bootstrap", fun v b => do pure { b with full_bootstrap := some (← decodeBool v) }),
   ("extended", fun v b => do pure { b with extended := some (← decodeBool v) }),
   ("tools", fun v b => do pure { b with tools := some (← decodeStrList v) }),
   ("verbose", fun v b => do pure { b with verbose := some (← decodeNat v) }),
   ("sanitizers", fun v b => do pure { b with sanitizers := some (← decodeBool v) }),
   ("profiler", fun v b => do pure { b with profiler := some (← decodeBool v) }),
   ("cargo-native-static", fun v b => do pure { b with cargo_native_static := some (← decodeBool v) }),
   ("low-priority", fun v b => do pure { b with low_priority := some (← decodeBool v) }),
   ("configure-args", fun v b => do pure { b with configure_args := some (← decodeStrList v) }),
   ("local-rebuild", fun v b => do pure { b with local_rebuild := some (← decodeBool v) }),
   ("print-step-timings", fun v b => do pure { b with print_step_timings := some (← decodeBool v) })]

/-- Field setters for the `[install]` section. -/
def installSetters : List (String × (TomlValue → Install → Except String Install)) :=
  [("prefix", fun v i => do pure { i with prefix_dir := some (← decodeStr v) }),
   ("sysconfdir", fun v i => do pure { i with sysconfdir := some (← decodeStr v) }),
   ("docdir", fun v i => do pure { i with docdir := some (← decodeStr v) }),
   ("bindir", fun v i => do pure { i with bindir := some (← decodeStr v) }),
   ("libdir", fun v i => do pure { i with libdir := some (← decodeStr v) }),
   ("mandir", fun v i => do pure { i with mandir := some (← decodeStr v) }),
   ("datadir", fun v i => do pure { i with datadir := some (← decodeStr v) }),
   ("infodir", fun v i => do pure { i with infodir := some (← decodeStr v) }),
   ("localstatedir", fun v i => do pure { i with localstatedir := some (← decodeStr v) })]

/-- Field setters for the `[llvm]` section. -/
def llvmSetters : List (String × (TomlValue → Llvm → Except String Llvm)) :=
  [("skip-rebuild", fun v l => do pure { l with skip_rebuild := some (← decodeBool v) }),
   ("optimize", fun v l => do pure { l with optimize := some (← decodeBool v) }),
   ("thin-lto", fun v l => do pure { l with thin_lto := some (← decodeBool v) }),
   ("release-debuginfo", fun v l => do pure { l with release_debuginfo := some (← decodeBool v) }),
   ("assertions", fun v l => do pure { l with assertions := some (← decodeBool v) }),
   ("ccache", fun v l => do pure { l with ccache := some (← decodeStringOrBool v) }),
   ("version-check", fun v l => do pure { l with version_check := some (← decodeBool v) }),
   ("static-libstdcpp", fun v l => do pure { l with static_libstdcpp := some (← decodeBool v) }),
   ("ninja", fun v l => do pure { l with ninja := some (← decodeBool v) }),
   ("targets", fun v l => do pure { l with targets := some (← decodeStr v) }),
   ("experimental-targets", fun v l => do pure { l with experimental_targets := some (← decodeStr v) }),
   ("link-jobs", fun v l => do pure { l with link_jobs := some (← decodeNat v) }),
   ("link-shared", fun v l => do pure { l with link_shared := some (← decodeBool v) }),
   ("version-suffix", fun v l => do pure { l with version_suffix := some (← decodeStr v) }),
   ("clang-cl", fun v l => do pure { l with clang_cl := some (← decodeStr v) }),
   ("cflags", fun v l => do pure { l with cflags := some (← decodeStr v) }),
   ("cxxflags", fun v l => do pure { l with cxxflags := some (← decodeStr v) }),
   ("ldflags", fun v l => do pure { l with ldflags := some (← decodeStr v) }),
   ("use-libcxx", fun v l => do pure { l with use_libcxx := some (← decodeBool v) }),
   ("use-linker", fun v l => do pure { l with use_linker := some (← decodeStr v) }),
   ("allow-old-toolchain", fun v l => do pure { l with allow_old_toolchain := some (← decodeBool v) })]

/-- Field setters for the `[rust]` section. -/
def rustSetters : List (String × (TomlValue → Rust → Except String Rust)) :=
  [("optimize", fun v r => do pure { r with optimize := some (← decodeBool v) }),
   ("debug", fun v r => do pure { r with debug := some (← decodeBool v) }),
   ("codegen-units", fun v r => do pure { r with codegen_units := some (← decodeNat v) }),
   ("codegen-units-std", fun v r => do pure { r with codegen_units_std := some (← decodeNat v) }),
   ("debug-assertions", fun v r => do pure { r with debug_assertions := some (← decodeBool v) }),
   ("debug-assertions-std", fun v r => do pure { r with debug_assertions_std := some (← decodeBool v) }),
   ("debuginfo-level", fun v r => do pure { r with debuginfo_level := some (← decodeNat v) }),
   ("debuginfo-level-rustc", fun v r => do pure { r with debuginfo_level_rustc := some (← decodeNat v) }),
   ("debuginfo-level-std", fun v r => do pure { r with debuginfo_level_std := some (← decodeNat v) }),
   ("debuginfo-level-tools", fun v r => do pure { r with debuginfo_level_tools := some (← decodeNat v) }),
   ("debuginfo-level-tests", fun v r => do pure { r with debuginfo_level_tests := some (← decodeNat v) }),
   ("backtrace", fun v r => do pure { r with backtrace := some (← decodeBool v) }),
   ("incremental", fun v r => do pure { r with incremental := some (← decodeBool v) }),
   ("parallel-compiler", fun v r => do pure { r with parallel_compiler := some (← decodeBool v) }),
   ("default-linker", fun v r => do pure { r with default_linker := some (← decodeStr v) }),
   ("channel", fun v r => do pure { r with channel := some (← decodeStr v) }),
   ("musl-root", fun v r => do pure { r with musl_root := some (← decodeStr v) }),
   ("rpath", fun v r => do pure { r with rpath := some (← decodeBool v) }),
   ("verbose-tests", fun v r => do pure { r with verbose_tests := some (← decodeBool v) }),
   ("optimize-tests", fun v r => do pure { r with optimize_tests := some (← decodeBool v) }),
   ("codegen-tests", fun v r => do pure { r with codegen_tests := some (← decodeBool v) }),
   ("ignore-git", fun v r => do pure { r with ignore_git := some (← decodeBool v) }),
   ("dist-src", fun v r => do pure { r with dist_src := some (← decodeBool v) }),
   ("save-toolstates", fun v r => do pure { r with save_toolstates := some (← decodeStr v) }),
   ("codegen-backends", fun v r => do pure { r with codegen_backends := some (← decodeStrList v) }),
   ("lld", fun v r => do pure { r with lld := some (← decodeBool v) }),
   ("use-lld", fun v r => do pure { r with use_lld := some (← decodeBool v) }),
   ("llvm-tools", fun v r => do pure { r with llvm_tools := some (← decodeBool v) }),
   ("deny-warnings", fun v r => do pure { r with deny_warnings := some (← decodeBool v) }),
   ("backtrace-on-ice", fun v r => do pure { r with backtrace_on_ice := some (← decodeBool v) }),
   ("verify-llvm-ir", fun v r => do pure { r with verify_llvm_ir := some (← decodeBool v) }),
   ("thin-lto-import-instr-limit", fun v r => do pure { r with thin_lto_import_instr_limit := some (← decodeNat v) }),
   ("remap-debuginfo", fun v r => do pure { r with remap_debuginfo := some (← decodeBool v) }),
   ("jemalloc", fun v r => do pure { r with jemalloc := some (← decodeBool v) }),
   ("test-compare-mode", fun v r => do pure { r with test_compare_mode := some (← decodeBool v) }),
   ("llvm-libunwind", fun v r => do pure { r with llvm_libunwind := some (← decodeBool v) }),
   ("control-flow-guard", fun v r => do pure { r with control_flow_guard := some (← decodeBool v) }),
   ("new-symbol-mangling", fun v r => do pure { r with new_symbol_mangling := some (← decodeBool v) })]

/-- Field setters for the `[dist]` section. -/
def distSetters : List (String × (TomlValue → Dist → Except String Dist)) :=
  [("sign-folder", fun v d => do pure { d with sign_folder := some (← decodeStr v) }),
   ("gpg-password-file", fun v d => do pure { d with gpg_password_file := some (← decodeStr v) }),
   ("upload-addr", fun v d => do pure { d with upload_addr := some (← decodeStr v) }),
   ("src-tarball", fun v d => do pure { d with src_tarball := some (← decodeBool v) }),
   ("missing-tools", fun v d => do pure { d with missing_tools := some (← decodeBool v) })]

/-- Field setters for a `[target.<triple>]` entry. -/
def tomlTargetSetters : List (String × (TomlValue → TomlTarget → Except String TomlTarget)) :=
  [("cc", fun v t => do pure { t with cc := some (← decodeStr v) }),
   ("cxx", fun v t => do pure { t with cxx := some (← decodeStr v) }),
   ("ar", fun v t => do pure { t with ar := some (← decodeStr v) }),
   ("ranlib", fun v t => do pure { t with ranlib := some (← decodeStr v) }),
   ("linker", fun v t => do pure { t with linker := some (← decodeStr v) }),
   ("llvm-config", fun v t => do pure { t with llvm_config := some (← decodeStr v) }),
   ("llvm-filecheck", fun v t => do pure { t with llvm_filecheck := some (← decodeStr v) }),
   ("android-ndk", fun v t => do pure { t with android_ndk := some (← decodeStr v) }),
   ("crt-static", fun v t => do pure { t with crt_static := some (← decodeBool v) }),
   ("musl-root", fun v t => do pure { t with musl_root := some (← decodeStr v) }),
   ("musl-libdir", fun v t => do pure { t with musl_libdir := some (← decodeStr v) }),
   ("wasi-root", fun v t => do pure { t with wasi_root := some (← decodeStr v) }),
   ("qemu-rootfs", fun v t => do pure { t with qemu_rootfs := some (← decodeStr v) }),
   ("no-std", fun v t => do pure { t with no_std := some (← decodeBool v) })]

/-- Decode the `[target]` section: a table whose every value is itself a table
of `TomlTarget` fields; entries are kept in document order. -/
def decodeTargets : List (String × TomlValue) → Except DecodeErr (List (String × TomlTarget))
  | [] => .ok []
  | kv :: rest =>
    match asTable kv.2 with
    | .error e => .error e
    | .ok tkvs =>
      match applySection tomlTargetSetters {} tkvs with
      | .error e => .error e
      | .ok t =>
        match decodeTargets rest with
        | .error e => .error e
        | .ok ts => .ok ((kv.1, t) :: ts)

/-- Decode one section value: it must be a table, its fields are applied via
the setter table, and the decoded section is installed by `F`. -/
def decodeSection {σ : Type}
    (setters : List (String × (TomlValue → σ → Except String σ)))
    (init : σ) (F : σ → TomlConfig) (v : TomlValue) : Except DecodeErr TomlConfig :=
  match asTable v with
  | .error e => .error e
  | .ok kvs =>
    match applySection setters init kvs with
    | .error e => .error e
    | .ok s => .ok (F s)

/-- Decode the `[target]` section value: a table of per-target tables. -/
def decodeTargetSection (F : List (String × TomlTarget) → TomlConfig)
    (v : TomlValue) : Except DecodeErr TomlConfig :=
  match asTable v with
  | .error e => .error e
  | .ok kvs =>
    match decodeTargets kvs with
    | .error e => .error e
    | .ok ts => .ok (F ts)

/-- Apply one top-level key of the document to the accumulating `TomlConfig`;
a key other than the six recognized sections is an `unknownField` error. -/
def TomlConfig.applyKey (c : TomlConfig) (k : String) (v : TomlValue) :
    Except DecodeErr TomlConfig :=
  if k = "build" then decodeSection buildSetters {} (fun b => { c with build := some b }) v
  else if k = "install" then decodeSection installSetters {} (fun i => { c with install := some i }) v
  else if k = "llvm" then decodeSection llvmSetters {} (fun l => { c with llvm := some l }) v
  else if k = "rust" then decodeSection rustSetters {} (fun r => { c with rust := some r }) v
  else if k = "target" then decodeTargetSection (fun ts => { c with target := some ts }) v
  else if k = "dist" then decodeSection distSetters {} (fun d => { c with dist := some d }) v
  else .error (.unknownField k)

/-- Process the top-level key/value pairs of the document in order. -/
def decodeTomlTable : TomlConfig → List (String × TomlValue) → Except DecodeErr TomlConfig
  | c, [] => .ok c
  | c, kv :: rest =>
    match TomlConfig.applyKey c kv.1 kv.2 with
    | .ok c2 => decodeTomlTable c2 rest
    | .error e => .error e

/-- Decode a whole document text into a `TomlConfig`, embedding
`toml::from_str::<TomlConfig>`: a malformed text is a syntax error and every
field name is validated against the schema. -/
def decodeTomlConfig : DocText → Except DecodeErr TomlConfig
  | .malformed => .error .syntaxErr
  | .table kvs => decodeTomlTable {} kvs

/-- Decode the optional document: absent means the default (empty) document,
exactly as `unwrap_or_else(TomlConfig::default)`. -/
def decodeFile : Option DocText → Except DecodeErr TomlConfig
  | some d => decodeTomlConfig d
  | none => .ok {}

/-- Does a document section (a table value) contain a key outside `keys`? -/
def sectionUnknown (keys : List String) : TomlValue → Bool
  | .vTable kvs => kvs.any (fun kv => !(keys.contains kv.1))
  | _ => false

/-- Does one top-level document entry either use an unrecognized top-level key
or contain an unrecognized key inside its (recognized) section? -/
def entryUnknown (kv : String × TomlValue) : Bool :=
  if kv.1 = "build" then sectionUnknown (buildSetters.map Prod.fst) kv.2
  else if kv.1 = "install" then sectionUnknown (installSetters.map Prod.fst) kv.2
  else if kv.1 = "llvm" then sectionUnknown (llvmSetters.map Prod.fst) kv.2
  else if kv.1 = "rust" then sectionUnknown (rustSetters.map Prod.fst) kv.2
  else if kv.1 = "target" then
    match kv.2 with
    | .vTable ts => ts.any (fun t => sectionUnknown (tomlTargetSetters.map Prod.fst) t.2)
    | _ => false
  else if kv.1 = "dist" then sectionUnknown (distSetters.map Prod.fst) kv.2
  else true

/-- Does the document contain a key not in the schema (an unknown top-level
key, or an unknown key in any recognized section)? -/
def DocText.hasUnknownKey : DocText → Bool
  | .malformed => false
  | .table kvs => kvs.any entryUnknown

/-- Embedding of `TargetSelection`: an interned triple plus an optional
interned path to a target specification file.  The derived Rust `PartialEq`
compares both fields, which is exactly Lean's structural equality. -/
structure TargetSelection where
  triple : String := ""
  file : Option String := none
deriving DecidableEq, Repr

/-- Embedding of `TargetSelection::from_user`; `fs` is the filesystem
existence probe (`Path::exists`). -/
def TargetSelection.from_user (fs : String → Bool) (selection : String) : TargetSelection :=
  if fs selection then { triple := fileStem selection, file := some selection }
  else { triple := selection, file := none }

/-- Embedding of `TargetSelection::rustc_target_arg`. -/
def TargetSelection.rustc_target_arg (t : TargetSelection) : String :=
  t.file.getD t.triple

/-- Embedding of `TargetSelection::contains`. -/
def TargetSelection.contains (t : TargetSelection) (needle : String) : Bool :=
  strContains t.triple needle

/-- Embedding of `TargetSelection::starts_with`. -/
def TargetSelection.starts_with (t : TargetSelection) (needle : String) : Bool :=
  t.triple.startsWith needle

/-- Embedding of `TargetSelection::ends_with`. -/
def TargetSelection.ends_with (t : TargetSelection) (needle : String) : Bool :=
  t.triple.endsWith needle

/-- Embedding of `impl fmt::Display for TargetSelection`. -/
def TargetSelection.display (t : TargetSelection) : String :=
  t.triple ++ (match t.file with | some f => "(" ++ f ++ ")" | none => "")

/-- Per-target configuration (struct `Target` in the source). -/
structure Target where
  llvm_config : Option String := none
  llvm_filecheck : Option String := none
  cc : Option String := none
  cxx : Option String := none
  ar : Option String := none
  ranlib : Option String := none
  linker : Option String := none
  ndk : Option String := none
  crt_static : Option Bool := none
  musl_root : Option String := none
  musl_libdir : Option String := none
  wasi_root : Option String := none
  qemu_rootfs : Option String := none
  no_std : Bool := false
deriving DecidableEq, Repr

/-- Embedding of `Target::from_triple`. -/
def Target.from_triple (triple : String) : Target :=
  if strContains triple "-none" || strContains triple "nvptx" then
    { no_std := true }
  else {}

/-- The build subcommand.  Its variants live in `flags.rs`, outside this
subsystem; resolution only copies it through, so a single variant suffices. -/
inductive Subcommand where
  | defaultCmd
deriving DecidableEq, Repr

/-- The already-typed overrides object produced by `Flags::parse` (an external
collaborator); only the fields `Config::parse` reads are modelled. -/
structure Flags where
  verbose : Nat := 0
  incremental : Bool := false
  config : Option DocText := none
  jobs : Option Nat := none
  cmd : Subcommand := .defaultCmd
  host : Option (List TargetSelection) := none
  target : Option (List TargetSelection) := none
  exclude : List String := []
  rustc_error_format : Option String := none
  json_output : Bool := false
  dry_run : Bool := false
  on_fail : Option String := none
  stage : Option Nat := none
  keep_stage : List Nat := []
  llvm_skip_rebuild : Option Bool := none
  deny_warnings : Option Bool := none

/-- Environment-sourced bootstrap parameters read by `Config::default_opts`;
all required variables are present by construction (absence is fatal in the
source before any record exists). -/
structure Env where
  build : String
  src : String
  build_dir : String
  rustc : String
  cargo : String
  rustfmt : Option String := none
deriving DecidableEq, Repr

/-- The resolved configuration record (struct `Config`), with Rust `Default`
values as Lean field defaults.  `PathBuf` is embedded as `String`,
`Interned<String>` as `String`, `HashMap` as an association list and
`HashSet<String>` as a list of strings. -/
structure Config where
  ccache : Option String := none
  ninja_in_file : Bool := false
  verbose : Nat := 0
  submodules : Bool := false
  fast_submodules : Bool := false
  compiler_docs : Bool := false
  docs : Bool := false
  locked_deps : Bool := false
  vendor : Bool := false
  target_config : List (TargetSelection × Target) := []
  full_bootstrap : Bool := false
  extended : Bool := false
  tools : Option (List String) := none
  sanitizers : Bool := false
  profiler : Bool := false
  ignore_git : Bool := false
  exclude : List String := []
  rustc_error_format : Option String := none
  json_output : Bool := false
  test_compare_mode : Bool := false
  llvm_libunwind : Bool := false
  skip_only_host_steps : Bool := false
  on_fail : Option String := none
  stage : Option Nat := none
  keep_stage : List Nat := []
  src : String := ""
  jobs : Option Nat := none
  cmd : Subcommand := .defaultCmd
  incremental : Bool := false
  dry_run : Bool := false
  deny_warnings : Bool := false
  backtrace_on_ice : Bool := false
  llvm_skip_rebuild : Bool := false
  llvm_assertions : Bool := false
  llvm_optimize : Bool := false
  llvm_thin_lto : Bool := false
  llvm_release_debuginfo : Bool := false
  llvm_version_check : Bool := false
  llvm_static_stdcpp : Bool := false
  llvm_link_shared : Bool := false
  llvm_clang_cl : Option String := none
  llvm_targets : Option String := none
  llvm_experimental_targets : Option String := none
  llvm_link_jobs : Option Nat := none
  llvm_version_suffix : Option String := none
  llvm_use_linker : Option String := none
  llvm_allow_old_toolchain : Option Bool := none
  use_lld : Bool := false
  lld_enabled : Bool := false
  llvm_tools_enabled : Bool := false
  llvm_cflags : Option String := none
  llvm_cxxflags : Option String := none
  llvm_ldflags : Option String := none
  llvm_use_libcxx : Bool := false
  rust_optimize : Bool := false
  rust_codegen_units : Option Nat := none
  rust_codegen_units_std : Option Nat := none
  rust_debug_assertions : Bool := false
  rust_debug_assertions_std : Bool := false
  rust_debuginfo_level_rustc : Nat := 0
  rust_debuginfo_level_std : Nat := 0
  rust_debuginfo_level_tools : Nat := 0
  rust_debuginfo_level_tests : Nat := 0
  rust_rpath : Bool := false
  rustc_parallel : Bool := false
  rustc_default_linker : Option String := none
  rust_optimize_tests : Bool := false
  rust_dist_src : Bool := false
  rust_codegen_backends : List String := []
  rust_verify_llvm_ir : Bool := false
  rust_thin_lto_import_instr_limit : Option Nat := none
  rust_remap_debuginfo : Bool := false
  rust_new_symbol_mangling : Bool := false
  build : TargetSelection := {}
  hosts : List TargetSelection := []
  targets : List TargetSelection := []
  local_rebuild : Bool := false
  jemalloc : Bool := false
  control_flow_guard : Bool := false
  dist_sign_folder : Option String := none
  dist_upload_addr : Option String := none
  dist_gpg_password_file : Option String := none
  backtrace : Bool := false
  low_priority : Bool := false
  channel : String := ""
  verbose_tests : Bool := false
  save_toolstates : Option String := none
  print_step_timings : Bool := false
  missing_tools : Bool := false
  musl_root : Option String := none
  prefix_dir : Option String := none
  sysconfdir : Option String := none
  datadir : Option String := none
  docdir : Option String := none
  bindir : String := ""
  libdir : Option String := none
  mandir : Option String := none
  codegen_tests : Bool := false
  nodejs : Option String := none
  gdb : Option String := none
  python : Option String := none
  cargo_native_static : Bool := false
  configure_args : List String := []
  initial_cargo : String := ""
  initial_rustc : String := ""
  initial_rustfmt : Option String := none
  out : String := ""
deriving DecidableEq, Repr

/-- The `set` helper of the source: overwrite a field only when the optional
input value is present. -/
def set {α : Type} (field : α) (val : Option α) : α :=
  match val with
  | some v => v
  | none => field

/-- Embedding of `threads_from_config`; `numCpus` stands for
`num_cpus::get()`. -/
def threads_from_config (numCpus : Nat) (v : Nat) : Nat :=
  match v with
  | 0 => numCpus
  | n => n

/-- Embedding of `Config::default_opts`. -/
def Config.default_opts (env : Env) (fs : String → Bool) : Config :=
  let config : Config := {}
  let config := { config with
    llvm_optimize := true
    ninja_in_file := true
    llvm_version_check := true
    backtrace := true
    rust_optimize := true
    rust_optimize_tests := true
    submodules := true
    fast_submodules := true
    docs := true
    rust_rpath := true
    channel := "dev"
    codegen_tests := true
    ignore_git := false
    rust_dist_src := true
    rust_codegen_backends := ["llvm"]
    deny_warnings := true
    missing_tools := false }
  { config with
    build := TargetSelection.from_user fs env.build
    src := normalize_python_path env.src
    out := normalize_python_path env.build_dir
    initial_rustc := normalize_python_path env.rustc
    initial_cargo := normalize_python_path env.cargo
    initial_rustfmt := env.rustfmt.map normalize_python_path }

/-- Lines 485–504 of `Config::parse`: apply the scalar command-line override
fields, the `bindir` default and the dry-run output-directory redirection. -/
def applyFlags (numCpus : Nat) (flags : Flags) (c : Config) : Config :=
  let c := { c with
    exclude := flags.exclude
    rustc_error_format := flags.rustc_error_format
    json_output := flags.json_output
    on_fail := flags.on_fail
    stage := flags.stage
    jobs := flags.jobs.map (threads_from_config numCpus)
    cmd := flags.cmd
    incremental := flags.incremental
    dry_run := flags.dry_run
    keep_stage := flags.keep_stage
    bindir := "bin" }
  let c :=
    match flags.deny_warnings with
    | some value => { c with deny_warnings := value }
    | none => c
  if c.dry_run then { c with out := pathJoin c.out "tmp-dry-run" } else c

/-- Lines 547–567 of `Config::parse`: apply the remaining `[build]` section
fields set-if-present, then take the maximum of the document verbosity and the
command-line verbosity. -/
def applyBuild (flags : Flags) (build : Build) (c : Config) : Config :=
  let c := { c with
    nodejs := build.nodejs
    gdb := build.gdb
    python := build.python
    low_priority := set c.low_priority build.low_priority
    compiler_docs := set c.compiler_docs build.compiler_docs
    docs := set c.docs build.docs
    submodules := set c.submodules build.submodules
    fast_submodules := set c.fast_submodules build.fast_submodules
    locked_deps := set c.locked_deps build.locked_deps
    vendor := set c.vendor build.vendor
    full_bootstrap := set c.full_bootstrap build.full_bootstrap
    extended := set c.extended build.extended
    tools := build.tools
    verbose := set c.verbose build.verbose
    sanitizers := set c.sanitizers build.sanitizers
    profiler := set c.profiler build.profiler
    cargo_native_static := set c.cargo_native_static build.cargo_native_static
    configure_args := set c.configure_args build.configure_args
    local_rebuild := set c.local_rebuild build.local_rebuild
    print_step_timings := set c.print_step_timings build.print_step_timings }
  { c with verbose := max c.verbose flags.verbose }

/-- Lines 569–577 of `Config::parse`: apply the `[install]` section fields. -/
def applyInstall (install : Option Install) (c : Config) : Config :=
  match install with
  | none => c
  | some i =>
    { c with
      prefix_dir := i.prefix_dir
      sysconfdir := i.sysconfdir
      datadir := i.datadir
      docdir := i.docdir
      bindir := set c.bindir i.bindir
      libdir := i.libdir
      mandir := i.mandir }

/-- The values lines 582–596 of `Config::parse` store off as options because
defaults for them are inferred only at the end of resolution. -/
structure Deferred where
  llvm_skip_rebuild : Option Bool := none
  llvm_assertions : Option Bool := none
  debug : Option Bool := none
  debug_assertions : Option Bool := none
  debug_assertions_std : Option Bool := none
  debuginfo_level : Option Nat := none
  debuginfo_level_rustc : Option Nat := none
  debuginfo_level_std : Option Nat := none
  debuginfo_level_tools : Option Nat := none
  debuginfo_level_tests : Option Nat := none
  optimize : Option Bool := none
  ignore_git : Option Bool := none
deriving DecidableEq, Repr

/-- The `[llvm]` section updates to the record (lines 598–627 of
`Config::parse`): the tri-state `ccache` mapping and the set-if-present
fields. -/
def applyLlvmConfig (llvm : Option Llvm) (c : Config) : Config :=
  match llvm with
  | none => c
  | some l =>
    let c :=
      match l.ccache with
      | some (.string s) => { c with ccache := some s }
      | some (.bool true) => { c with ccache := some "ccache" }
      | some (.bool false) => c
      | none => c
    { c with
      ninja_in_file := set c.ninja_in_file l.ninja
      llvm_optimize := set c.llvm_optimize l.optimize
      llvm_thin_lto := set c.llvm_thin_lto l.thin_lto
      llvm_release_debuginfo := set c.llvm_release_debuginfo l.release_debuginfo
      llvm_version_check := set c.llvm_version_check l.version_check
      llvm_static_stdcpp := set c.llvm_static_stdcpp l.static_libstdcpp
      llvm_link_shared := set c.llvm_link_shared l.link_shared
      llvm_targets := l.targets
      llvm_experimental_targets := l.experimental_targets
      llvm_link_jobs := l.link_jobs
      llvm_version_suffix := l.version_suffix
      llvm_clang_cl := l.clang_cl
      llvm_cflags := l.cflags
      llvm_cxxflags := l.cxxflags
      llvm_ldflags := l.ldflags
      llvm_use_libcxx := set c.llvm_use_libcxx l.use_libcxx
      llvm_use_linker := l.use_linker
      llvm_allow_old_toolchain := l.allow_old_toolchain }

/-- The `[llvm]` section updates to the deferred values (lines 607–608 of
`Config::parse`): `llvm_assertions` is stored off, and the command-line
`llvm-skip-rebuild` flag takes precedence over the document value. -/
def applyLlvmDeferred (llvm : Option Llvm) (d : Deferred) : Deferred :=
  match llvm with
  | none => d
  | some l =>
    { d with
      llvm_assertions := l.assertions
      llvm_skip_rebuild := Option.or d.llvm_skip_rebuild l.skip_rebuild }

/-- The `[rust]` section updates to the record (lines 629–676 of
`Config::parse`). -/
def applyRustConfig (numCpus : Nat) (flags : Flags) (rust : Option Rust) (c : Config) : Config :=
  match rust with
  | none => c
  | some r =>
    let c := { c with
      rust_new_symbol_mangling := set c.rust_new_symbol_mangling r.new_symbol_mangling
      rust_optimize_tests := set c.rust_optimize_tests r.optimize_tests
      codegen_tests := set c.codegen_tests r.codegen_tests
      rust_rpath := set c.rust_rpath r.rpath
      jemalloc := set c.jemalloc r.jemalloc
      test_compare_mode := set c.test_compare_mode r.test_compare_mode
      llvm_libunwind := set c.llvm_libunwind r.llvm_libunwind
      backtrace := set c.backtrace r.backtrace
      channel := set c.channel r.channel
      rust_dist_src := set c.rust_dist_src r.dist_src
      verbose_tests := set c.verbose_tests r.verbose_tests }
    -- in the case "false" is set explicitly, do not overwrite the command line args
    let c := if r.incremental = some true then { c with incremental := true } else c
    let c := { c with
      use_lld := set c.use_lld r.use_lld
      lld_enabled := set c.lld_enabled r.lld
      llvm_tools_enabled := set c.llvm_tools_enabled r.llvm_tools
      rustc_parallel := r.parallel_compiler.getD false
      rustc_default_linker := r.default_linker
      musl_root := r.musl_root
      save_toolstates := r.save_toolstates
      deny_warnings := set c.deny_warnings (Option.or flags.deny_warnings r.deny_warnings)
      backtrace_on_ice := set c.backtrace_on_ice r.backtrace_on_ice
      rust_verify_llvm_ir := set c.rust_verify_llvm_ir r.verify_llvm_ir
      rust_thin_lto_import_instr_limit := r.thin_lto_import_instr_limit
      rust_remap_debuginfo := set c.rust_remap_debuginfo r.remap_debuginfo
      control_flow_guard := set c.control_flow_guard r.control_flow_guard }
    let c :=
      match r.codegen_backends with
      | some backends => { c with rust_codegen_backends := backends }
      | none => c
    { c with
      rust_codegen_units := r.codegen_units.map (threads_from_config numCpus)
      rust_codegen_units_std := r.codegen_units_std.map (threads_from_config numCpus) }

/-- The `[rust]` section updates to the deferred values (lines 630–639 of
`Config::parse`). -/
def applyRustDeferred (rust : Option Rust) (d : Deferred) : Deferred :=
  match rust with
  | none => d
  | some r =>
    { d with
      debug := r.debug
      debug_assertions := r.debug_assertions
      debug_assertions_std := r.debug_assertions_std
      debuginfo_level := r.debuginfo_level
      debuginfo_level_rustc := r.debuginfo_level_rustc
      debuginfo_level_std := r.debuginfo_level_std
      debuginfo_level_tools := r.debuginfo_level_tools
      debuginfo_level_tests := r.debuginfo_level_tests
      optimize := r.optimize
      ignore_git := r.ignore_git }

/-- Insertion into the per-target map (`HashMap::insert`): replace the entry
with an equal key, otherwise append. -/
def insertTargetConfig (m : List (TargetSelection × Target))
    (k : TargetSelection) (v : Target) : List (TargetSelection × Target) :=
  if m.any (fun p => p.1 = k) then
    m.map (fun p => if p.1 = k then (k, v) else p)
  else m ++ [(k, v)]

/-- One iteration of the `[target]` loop (lines 679–706 of `Config::parse`). -/
def applyOneTarget (fs : String → Bool) (c : Config) (p : String × TomlTarget) : Config :=
  let triple := p.1
  let cfg := p.2
  let target := Target.from_triple triple
  let target :=
    match cfg.llvm_config with
    | some s => { target with llvm_config := some (pathJoin c.src s) }
    | none => target
  let target :=
    match cfg.llvm_filecheck with
    | some s => { target with llvm_filecheck := some (pathJoin c.src s) }
    | none => target
  let target :=
    match cfg.android_ndk with
    | some s => { target with ndk := some (pathJoin c.src s) }
    | none => target
  let target :=
    match cfg.no_std with
    | some s => { target with no_std := s }
    | none => target
  let target := { target with
    cc := cfg.cc
    cxx := cfg.cxx
    ar := cfg.ar
    ranlib := cfg.ranlib
    linker := cfg.linker
    crt_static := cfg.crt_static
    musl_root := cfg.musl_root
    musl_libdir := cfg.musl_libdir
    wasi_root := cfg.wasi_root
    qemu_rootfs := cfg.qemu_rootfs }
  { c with target_config :=
      insertTargetConfig c.target_config (TargetSelection.from_user fs triple) target }

/-- The `[target]` section loop. -/
def applyTargetSection (fs : String → Bool)
    (t : Option (List (String × TomlTarget))) (c : Config) : Config :=
  match t with
  | none => c
  | some ts => ts.foldl (applyOneTarget fs) c

/-- Lines 709–715 of `Config::parse`: apply the `[dist]` section fields. -/
def applyDist (dist : Option Dist) (c : Config) : Config :=
  match dist with
  | none => c
  | some t =>
    { c with
      dist_sign_folder := t.sign_folder
      dist_gpg_password_file := t.gpg_password_file
      dist_upload_addr := t.upload_addr
      rust_dist_src := set c.rust_dist_src t.src_tarball
      missing_tools := set c.missing_tools t.missing_tools }

/-- Lines 717–749 of `Config::parse`: infer the default values for all options
not otherwise stored yet. -/
def inferDefaults (build : Build) (d : Deferred) (c : Config) : Config :=
  let c := { c with
    initial_rustc := set c.initial_rustc build.rustc
    initial_cargo := set c.initial_cargo build.cargo }
  let c := { c with llvm_skip_rebuild := d.llvm_skip_rebuild.getD false }
  let c := { c with llvm_assertions := d.llvm_assertions.getD false }
  let c := { c with rust_optimize := d.optimize.getD true }
  let dflt := d.debug = some true
  let c := { c with rust_debug_assertions := d.debug_assertions.getD dflt }
  let c := { c with
    rust_debug_assertions_std := d.debug_assertions_std.getD c.rust_debug_assertions }
  let with_defaults := fun (debuginfo_level_specific : Option Nat) =>
    (Option.or debuginfo_level_specific d.debuginfo_level).getD
      (if d.debug = some true then 1 else 0)
  let c := { c with
    rust_debuginfo_level_rustc := with_defaults d.debuginfo_level_rustc
    rust_debuginfo_level_std := with_defaults d.debuginfo_level_std
    rust_debuginfo_level_tools := with_defaults d.debuginfo_level_tools
    rust_debuginfo_level_tests := d.debuginfo_level_tests.getD 0 }
  let dfltGit := c.channel = "dev"
  { c with ignore_git := d.ignore_git.getD dfltGit }

/-- Steps 5–12 of the merge (lines 523–751 of `Config::parse`): everything
that happens after the document has been decoded successfully. -/
def applyToml (fs : String → Bool) (numCpus : Nat) (flags : Flags) (toml : TomlConfig)
    (config : Config) : Config :=
  let build := toml.build.getD {}
  -- If --target was specified but --host wasn't specified, don't run any host-only tests.
  let has_hosts := build.host.isSome || flags.host.isSome
  let has_targets := build.target.isSome || flags.target.isSome
  let config := { config with skip_only_host_steps := !has_hosts && has_targets }
  let config := { config with
    hosts :=
      match flags.host with
      | some arg_host => arg_host
      | none =>
        match build.host with
        | some file_host => file_host.map (TargetSelection.from_user fs)
        | none => [config.build] }
  let config := { config with
    targets :=
      match flags.target with
      | some arg_target => arg_target
      | none =>
        match build.target with
        | some file_target => file_target.map (TargetSelection.from_user fs)
        | none => config.hosts }
  let config := applyBuild flags build config
  let config := applyInstall toml.install config
  let deferred : Deferred := { llvm_skip_rebuild := flags.llvm_skip_rebuild }
  let config := applyLlvmConfig toml.llvm config
  let deferred := applyLlvmDeferred toml.llvm deferred
  let config := applyRustConfig numCpus flags toml.rust config
  let deferred := applyRustDeferred toml.rust deferred
  let config := applyTargetSection fs toml.target config
  let config := applyDist toml.dist config
  inferDefaults build deferred config

/-- Embedding of `Config::parse`: defaults, command-line overrides, document
decode (a decode failure fails the whole resolution and produces no record),
document application and default inference. -/
def Config.parse (env : Env) (fs : String → Bool) (numCpus : Nat)
    (flags : Flags) : Except DecodeErr Config :=
  let config := Config.default_opts env fs
  let config := applyFlags numCpus flags config
  match decodeFile flags.config with
  | .error e => .error e
  | .ok toml => .ok (applyToml fs numCpus flags toml config)

/-! Concrete inputs used to instantiate the theorems below on closed values. -/

/-- A concrete set of bootstrap parameters. -/
def env0 : Env :=
  { build := "x86_64-unknown-linux-gnu", src := "/src/rust", build_dir := "/build",
    rustc := "/stage0/bin/rustc", cargo := "/stage0/bin/cargo" }

/-- A concrete filesystem probe on which no path exists. -/
def fs0 : String → Bool := fun _ => false

/-- Overrides supplying only a target list. -/
def flags1 : Flags := { target := some [{ triple := "wasm32-wasi" }] }

/-- The record resolved from `flags1`. -/
def cfg1 : Config := (Config.parse env0 fs0 4 flags1).toOption.getD {}

/-- A document with an unknown key inside the recognized `[rust]` section. -/
def docBad : DocText := .table [("rust", .vTable [("bogus-key", .vBool true)])]

/-- A document containing only recognized keys. -/
def docGood : DocText :=
  .table [("build", .vTable [("verbose", .vInt 1)]),
          ("rust", .vTable [("debug", .vBool true)])]

/-- Overrides with a document setting debug mode and one explicit level. -/
def flags3 : Flags :=
  { config := some (.table [("rust", .vTable
      [("debug", .vBool true), ("debuginfo-level-std", .vInt 2)])]) }

/-- The record resolved from `flags3`. -/
def cfg3 : Config := (Config.parse env0 fs0 4 flags3).toOption.getD {}

/-- The document decoded from `flags3`. -/
def toml3 : TomlConfig := (decodeFile flags3.config).toOption.getD {}

/-- Overrides with a document setting the channel to stable. -/
def flags4 : Flags :=
  { config := some (.table [("rust", .vTable [("channel", .vStr "stable")])]) }

/-- The record resolved from `flags4`. -/
def cfg4 : Config := (Config.parse env0 fs0 4 flags4).toOption.getD {}

/-- The document decoded from `flags4`. -/
def toml4 : TomlConfig := (decodeFile flags4.config).toOption.getD {}

/-- Overrides with command-line verbosity 1 and document verbosity 3. -/
def flags5 : Flags :=
  { verbose := 1, config := some (.table [("build", .vTable [("verbose", .vInt 3)])]) }

/-- The record resolved from `flags5`. -/
def cfg5 : Config := (Config.parse env0 fs0 4 flags5).toOption.getD {}

/-- The document decoded from `flags5`. -/
def toml5 : TomlConfig := (decodeFile flags5.config).toOption.getD {}

/-- Overrides with a document setting the cache flag to boolean true. -/
def flags7 : Flags :=
  { config := some (.table [("llvm", .vTable [("ccache", .vBool true)])]) }

/-- The record resolved from `flags7`. -/
def cfg7 : Config := (Config.parse env0 fs0 4 flags7).toOption.getD {}

/-- The document decoded from `flags7`. -/
def toml7 : TomlConfig := (decodeFile flags7.config).toOption.getD {}

/-- Overrides with a job count of literal zero. -/
def flags8 : Flags := { jobs := some 0 }

/-- The record resolved from `flags8`. -/
def cfg8 : Config := (Config.parse env0 fs0 4 flags8).toOption.getD {}

/-- Overrides without the incremental flag but with a document enabling it. -/
def flags10 : Flags :=
  { config := some (.table [("rust", .vTable [("incremental", .vBool true)])]) }

/-- The record resolved from `flags10`. -/
def cfg10 : Config := (Config.parse env0 fs0 4 flags10).toOption.getD {}

/-- The document decoded from `flags10`. -/
def toml10 : TomlConfig := (decodeFile flags10.config).toOption.getD {}

/-! Lemmas about the strict field validation of the document decoder. -/

theorem findSetter_some_mem {σ : Type} {k : String}
    {l : List (String × (TomlValue → σ → Except String σ))}
    {f : TomlValue → σ → Except String σ} (h : findSetter k l = some f) :
    k ∈ l.map Prod.fst := by
  induction l with
  | nil => simp [findSetter] at h
  | cons p rest ih =>
    obtain ⟨name, g⟩ := p
    rw [findSetter] at h
    by_cases hk : k = name
    · simp [hk]
    · rw [if_neg hk] at h
      simp only [List.map_cons, List.mem_cons]
      exact Or.inr (ih h)

theorem findSetter_mem_some {σ : Type} {k : String}
    {l : List (String × (TomlValue → σ → Except String σ))}
    (h : k ∈ l.map Prod.fst) : ∃ f, findSetter k l = some f := by
  induction l with
  | nil => simp at h
  | cons p rest ih =>
    obtain ⟨name, g⟩ := p
    rw [findSetter]
    by_cases hk : k = name
    · exact ⟨g, if_pos hk⟩
    · rw [if_neg hk]
      simp only [List.map_cons, List.mem_cons] at h
      rcases h with h | h
      · exact absurd h hk
      · exact ih h

theorem applySection_ok_keys {σ : Type}
    {setters : List (String × (TomlValue → σ → Except String σ))} :
    ∀ {kvs : List (String × TomlValue)} {init s : σ},
      applySection setters init kvs = .ok s →
      ∀ kv ∈ kvs, kv.1 ∈ setters.map Prod.fst := by
  intro kvs
  induction kvs with
  | nil => intro init s _ kv hkv; simp at hkv
  | cons kv rest ih =>
    intro init s h kv' hkv'
    rw [applySection] at h
    cases hfind : findSetter kv.1 setters with
    | none => rw [hfind] at h; exact absurd h (by simp)
    | some f =>
      simp only [hfind] at h
      cases hstep : f kv.2 init with
      | error e => simp only [hstep] at h; exact absurd h (by simp)
      | ok s2 =>
        simp only [hstep] at h
        rcases List.mem_cons.mp hkv' with rfl | hmem
        · exact findSetter_some_mem hfind
        · exact ih h kv' hmem

theorem applySection_error_of_unknown {σ : Type}
    {setters : List (String × (TomlValue → σ → Except String σ))}
    {kvs : List (String × TomlValue)} (init : σ)
    (h : ∃ kv ∈ kvs, kv.1 ∉ setters.map Prod.fst) :
    ∃ e, applySection setters init kvs = .error e := by
  cases hres : applySection setters init kvs with
  | ok s =>
    obtain ⟨kv, hmem, hnot⟩ := h
    exact absurd (applySection_ok_keys hres kv hmem) hnot
  | error e => exact ⟨e, rfl⟩

theorem applySection_ne_unknownField {σ : Type}
    {setters : List (String × (TomlValue → σ → Except String σ))} :
    ∀ {kvs : List (String × TomlValue)} {init : σ},
      (∀ kv ∈ kvs, kv.1 ∈ setters.map Prod.fst) →
      ∀ k, applySection setters init kvs ≠ .error (.unknownField k) := by
  intro kvs
  induction kvs with
  | nil => intro init _ k; rw [applySection]; simp
  | cons kv rest ih =>
    intro init h k
    rw [applySection]
    obtain ⟨f, hf⟩ := findSetter_mem_some (h kv (by simp))
    simp only [hf]
    cases hstep : f kv.2 init with
    | error e => simp [hstep]
    | ok s2 =>
      simp only [hstep]
      exact ih (fun kv' hm => h kv' (List.mem_cons_of_mem _ hm)) k

theorem sectionUnknown_true {keys : List String} {v : TomlValue}
    (h : sectionUnknown keys v = true) :
    ∃ kvs, v = .vTable kvs ∧ ∃ kv ∈ kvs, kv.1 ∉ keys := by
  cases v with
  | vTable kvs =>
    refine ⟨kvs, rfl, ?_⟩
    simp only [sectionUnknown, List.any_eq_true, Bool.not_eq_true'] at h
    obtain ⟨kv, hmem, hkv⟩ := h
    refine ⟨kv, hmem, fun hc => ?_⟩
    have hco : keys.contains kv.1 = true := List.elem_iff.mpr hc
    rw [hco] at hkv
    exact absurd hkv (by simp)
  | vStr s => simp [sectionUnknown] at h
  | vBool b => simp [sectionUnknown] at h
  | vInt n => simp [sectionUnknown] at h
  | vStrList l => simp [sectionUnknown] at h

theorem sectionUnknown_false_table {keys : List String} {kvs : List (String × TomlValue)}
    (h : sectionUnknown keys (.vTable kvs) = false) :
    ∀ kv ∈ kvs, kv.1 ∈ keys := by
  intro kv hmem
  by_contra hc
  have hco : keys.contains kv.1 = false := by
    cases hcc : keys.contains kv.1
    · rfl
    · exact absurd (List.elem_iff.mp hcc) hc
  have htrue : sectionUnknown keys (.vTable kvs) = true := by
    simp only [sectionUnknown, List.any_eq_true]
    exact ⟨kv, hmem, by simp only [hco, Bool.not_false]⟩
  rw [h] at htrue
  exact absurd htrue (by simp)

theorem asTable_error_shape {v : TomlValue} {e : DecodeErr} (h : asTable v = .error e) :
    e = .typeMismatch "expected a table" := by
  cases v <;> simp [asTable] at h <;> exact h.symm

theorem asTable_ok_shape {v : TomlValue} {kvs : List (String × TomlValue)}
    (h : asTable v = .ok kvs) : v = .vTable kvs := by
  cases v with
  | vTable kvs2 => simp [asTable] at h; rw [h]
  | vStr s => simp [asTable] at h
  | vBool b => simp [asTable] at h
  | vInt n => simp [asTable] at h
  | vStrList l => simp [asTable] at h

theorem decodeTargets_error_of_unknown :
    ∀ {kvs : List (String × TomlValue)},
      (∃ t ∈ kvs, sectionUnknown (tomlTargetSetters.map Prod.fst) t.2 = true) →
      ∃ e, decodeTargets kvs = .error e := by
  intro kvs
  induction kvs with
  | nil => intro h; simp at h
  | cons kv rest ih =>
    intro h
    rw [decodeTargets]
    rcases h with ⟨t, hmem, hflag⟩
    rcases List.mem_cons.mp hmem with rfl | hmem'
    · obtain ⟨tkvs, hv, hun⟩ := sectionUnknown_true hflag
      rw [hv]
      obtain ⟨e, he⟩ := applySection_error_of_unknown (σ := TomlTarget) {} hun
      exact ⟨e, by simp [asTable, he]⟩
    · cases h1 : asTable kv.2 with
      | error e => exact ⟨e, by simp only [h1]⟩
      | ok tkvs =>
        cases h2 : applySection tomlTargetSetters {} tkvs with
        | error e => exact ⟨e, by simp only [h1, h2]⟩
        | ok t2 =>
          obtain ⟨e, he⟩ := ih ⟨t, hmem', hflag⟩
          exact ⟨e, by simp only [h1, h2, he]⟩

theorem decodeTargets_ne_unknownField :
    ∀ {kvs : List (String × TomlValue)},
      (∀ t ∈ kvs, sectionUnknown (tomlTargetSetters.map Prod.fst) t.2 = false) →
      ∀ k, decodeTargets kvs ≠ .error (.unknownField k) := by
  intro kvs
  induction kvs with
  | nil => intro _ k; rw [decodeTargets]; simp
  | cons kv rest ih =>
    intro h k
    rw [decodeTargets]
    cases h1 : asTable kv.2 with
    | error e =>
      have hsh := asTable_error_shape h1
      simp [h1, hsh]
    | ok tkvs =>
      simp only [h1]
      have htab : kv.2 = .vTable tkvs := asTable_ok_shape h1
      have hkeys : ∀ kv' ∈ tkvs, kv'.1 ∈ tomlTargetSetters.map Prod.fst := by
        apply sectionUnknown_false_table
        have := h kv (by simp)
        rwa [htab] at this
      cases h2 : applySection tomlTargetSetters {} tkvs with
      | error e =>
        simp only [h2]
        intro hcontra
        simp only [Except.error.injEq] at hcontra
        rw [hcontra] at h2
        exact applySection_ne_unknownField hkeys k h2
      | ok t2 =>
        simp only [h2]
        cases h3 : decodeTargets rest with
        | error e =>
          simp only [h3]
          intro hcontra
          simp only [Except.error.injEq] at hcontra
          rw [hcontra] at h3
          exact ih (fun t hm => h t (List.mem_cons_of_mem _ hm)) k h3
        | ok ts => simp [h3]

theorem applyKey_error_of_entryUnknown {c : TomlConfig} {k : String} {v : TomlValue}
    (h : entryUnknown (k, v) = true) :
    ∃ e, TomlConfig.applyKey c k v = .error e := by
  by_cases hb : k = "build"
  · subst hb
    simp only [entryUnknown, if_pos rfl] at h
    obtain ⟨kvs, rfl, hun⟩ := sectionUnknown_true h
    obtain ⟨e, he⟩ := applySection_error_of_unknown (σ := Build) {} hun
    exact ⟨e, by simp [TomlConfig.applyKey, decodeSection, asTable, he]⟩
  · by_cases hi : k = "install"
    · subst hi
      simp only [entryUnknown] at h
      norm_num at h
      obtain ⟨kvs, rfl, hun⟩ := sectionUnknown_true h
      obtain ⟨e, he⟩ := applySection_error_of_unknown (σ := Install) {} hun
      exact ⟨e, by simp [TomlConfig.applyKey, decodeSection, asTable, he]⟩
    · by_cases hl : k = "llvm"
      · subst hl
        simp only [entryUnknown] at h
        norm_num at h
        obtain ⟨kvs, rfl, hun⟩ := sectionUnknown_true h
        obtain ⟨e, he⟩ := applySection_error_of_unknown (σ := Llvm) {} hun
        exact ⟨e, by simp [TomlConfig.applyKey, decodeSection, asTable, he]⟩
      · by_cases hr : k = "rust"
        · subst hr
          simp only [entryUnknown] at h
          norm_num at h
          obtain ⟨kvs, rfl, hun⟩ := sectionUnknown_true h
          obtain ⟨e, he⟩ := applySection_error_of_unknown (σ := Rust) {} hun
          exact ⟨e, by simp [TomlConfig.applyKey, decodeSection, asTable, he]⟩
        · by_cases ht : k = "target"
          · subst ht
            simp only [entryUnknown] at h
            norm_num at h
            cases hv : v with
            | vTable ts =>
              rw [hv] at h
              have hflag : ∃ t ∈ ts,
                  sectionUnknown (tomlTargetSetters.map Prod.fst) t.2 = true := by
                simpa using h
              obtain ⟨e, he⟩ := decodeTargets_error_of_unknown hflag
              exact ⟨e, by simp [TomlConfig.applyKey, decodeTargetSection, asTable, he]⟩
            | vStr s => rw [hv] at h; simp at h
            | vBool b => rw [hv] at h; simp at h
            | vInt n => rw [hv] at h; simp at h
            | vStrList l => rw [hv] at h; simp at h
          · by_cases hd : k = "dist"
            · subst hd
              simp only [entryUnknown] at h
              norm_num at h
              obtain ⟨kvs, rfl, hun⟩ := sectionUnknown_true h
              obtain ⟨e, he⟩ := applySection_error_of_unknown (σ := Dist) {} hun
              exact ⟨e, by simp [TomlConfig.applyKey, decodeSection, asTable, he]⟩
            · refine ⟨.unknownField k, ?_⟩
              simp [TomlConfig.applyKey, hb, hi, hl, hr, ht, hd]

theorem decodeSection_ne_unknownField {σ : Type}
    {setters : List (String × (TomlValue → σ → Except String σ))}
    {v : TomlValue} (init : σ)
    (h : sectionUnknown (setters.map Prod.fst) v = false)
    (F : σ → TomlConfig) (k2 : String) :
    decodeSection setters init F v ≠ .error (.unknownField k2) := by
  rw [decodeSection]
  cases h1 : asTable v with
  | error e =>
    have hsh := asTable_error_shape h1
    simp [h1, hsh]
  | ok kvs =>
    simp only [h1]
    have htab := asTable_ok_shape h1
    have hkeys : ∀ kv' ∈ kvs, kv'.1 ∈ setters.map Prod.fst := by
      apply sectionUnknown_false_table
      rwa [htab] at h
    cases h2 : applySection setters init kvs with
    | error e =>
      simp only [h2]
      intro hcontra
      simp only [Except.error.injEq] at hcontra
      rw [hcontra] at h2
      exact applySection_ne_unknownField hkeys k2 h2
    | ok s => simp [h2]

theorem decodeTargetSection_ne_unknownField {v : TomlValue}
    (h : (match v with
          | .vTable ts => ts.any (fun t => sectionUnknown (tomlTargetSetters.map Prod.fst) t.2)
          | _ => false) = false)
    (F : List (String × TomlTarget) → TomlConfig) (k2 : String) :
    decodeTargetSection F v ≠ .error (.unknownField k2) := by
  rw [decodeTargetSection]
  cases h1 : asTable v with
  | error e =>
    have hsh := asTable_error_shape h1
    simp [h1, hsh]
  | ok kvs =>
    simp only [h1]
    have htab := asTable_ok_shape h1
    rw [htab] at h
    have hall : ∀ t ∈ kvs, sectionUnknown (tomlTargetSetters.map Prod.fst) t.2 = false := by
      simp only [List.any_eq_false, Bool.not_eq_true] at h
      exact h
    cases h2 : decodeTargets kvs with
    | error e =>
      simp only [h2]
      intro hcontra
      simp only [Except.error.injEq] at hcontra
      rw [hcontra] at h2
      exact decodeTargets_ne_unknownField hall k2 h2
    | ok ts => simp [h2]

theorem applyKey_ne_unknownField {c : TomlConfig} {k : String} {v : TomlValue}
    (h : entryUnknown (k, v) = false) (k2 : String) :
    TomlConfig.applyKey c k v ≠ .error (.unknownField k2) := by
  by_cases hb : k = "build"
  · subst hb
    simp only [entryUnknown] at h
    norm_num at h
    simp only [TomlConfig.applyKey]
    norm_num
    exact decodeSection_ne_unknownField {} h (fun b => { c with build := some b }) k2
  · by_cases hi : k = "install"
    · subst hi
      simp only [entryUnknown] at h
      norm_num at h
      simp only [TomlConfig.applyKey]
      norm_num
      exact decodeSection_ne_unknownField {} h (fun i => { c with install := some i }) k2
    · by_cases hl : k = "llvm"
      · subst hl
        simp only [entryUnknown] at h
        norm_num at h
        simp only [TomlConfig.applyKey]
        norm_num
        exact decodeSection_ne_unknownField {} h (fun l => { c with llvm := some l }) k2
      · by_cases hr : k = "rust"
        · subst hr
          simp only [entryUnknown] at h
          norm_num at h
          simp only [TomlConfig.applyKey]
          norm_num
          exact decodeSection_ne_unknownField {} h (fun r => { c with rust := some r }) k2
        · by_cases ht : k = "target"
          · subst ht
            simp only [entryUnknown] at h
            norm_num at h
            simp only [TomlConfig.applyKey]
            norm_num
            exact decodeTargetSection_ne_unknownField h (fun ts => { c with target := some ts }) k2
          · by_cases hd : k = "dist"
            · subst hd
              simp only [entryUnknown] at h
              norm_num at h
              simp only [TomlConfig.applyKey]
              norm_num
              exact decodeSection_ne_unknownField {} h (fun d => { c with dist := some d }) k2
            · exfalso
              simp [entryUnknown, hb, hi, hl, hr, ht, hd] at h

theorem decodeTomlTable_error_of_unknown :
    ∀ {kvs : List (String × TomlValue)} (c : TomlConfig),
      (∃ kv ∈ kvs, entryUnknown kv = true) →
      ∃ e, decodeTomlTable c kvs = .error e := by
  intro kvs
  induction kvs with
  | nil => intro c h; simp at h
  | cons kv rest ih =>
    intro c h
    rw [decodeTomlTable]
    rcases h with ⟨kv', hmem, hflag⟩
    rcases List.mem_cons.mp hmem with rfl | hmem'
    · have hflag2 : entryUnknown (kv'.1, kv'.2) = true := hflag
      obtain ⟨e, he⟩ := applyKey_error_of_entryUnknown (c := c) hflag2
      exact ⟨e, by simp only [he]⟩
    · cases h1 : TomlConfig.applyKey c kv.1 kv.2 with
      | error e => exact ⟨e, by simp only [h1]⟩
      | ok c2 =>
        obtain ⟨e, he⟩ := ih c2 ⟨kv', hmem', hflag⟩
        exact ⟨e, by simp only [h1, he]⟩

theorem decodeTomlTable_ne_unknownField :
    ∀ {kvs : List (String × TomlValue)} (c : TomlConfig),
      (∀ kv ∈ kvs, entryUnknown kv = false) →
      ∀ k, decodeTomlTable c kvs ≠ .error (.unknownField k) := by
  intro kvs
  induction kvs with
  | nil => intro c _ k; rw [decodeTomlTable]; simp
  | cons kv rest ih =>
    intro c h k
    rw [decodeTomlTable]
    cases h1 : TomlConfig.applyKey c kv.1 kv.2 with
    | error e =>
      simp only [h1]
      intro hcontra
      simp only [Except.error.injEq] at hcontra
      rw [hcontra] at h1
      have hflag : entryUnknown (kv.1, kv.2) = false := h kv (by simp)
      exact applyKey_ne_unknownField hflag k h1
    | ok c2 =>
      simp only [h1]
      exact ih c2 (fun kv' hm => h kv' (List.mem_cons_of_mem _ hm)) k

theorem decode_error_of_hasUnknownKey {d : DocText} (h : d.hasUnknownKey = true) :
    ∃ e, decodeTomlConfig d = .error e := by
  cases d with
  | malformed => simp [DocText.hasUnknownKey] at h
  | table kvs =>
    rw [decodeTomlConfig]
    apply decodeTomlTable_error_of_unknown
    simpa [DocText.hasUnknownKey, List.any_eq_true] using h

theorem decode_ne_unknownField {d : DocText} (h : d.hasUnknownKey = false) :
    ∀ k, decodeTomlConfig d ≠ .error (.unknownField k) := by
  intro k
  cases d with
  | malformed => rw [decodeTomlConfig]; simp
  | table kvs =>
    rw [decodeTomlConfig]
    have hall : ∀ kv ∈ kvs, entryUnknown kv = false := by
      simp only [DocText.hasUnknownKey, List.any_eq_false, Bool.not_eq_true] at h
      exact h
    exact decodeTomlTable_ne_unknownField {} hall k

/-! Lemmas tracking single fields of the record through the merge phases. -/

theorem parse_ok_elim {env : Env} {fs : String → Bool} {n : Nat} {flags : Flags}
    {toml : TomlConfig} {cfg : Config}
    (hdec : decodeFile flags.config = .ok toml)
    (h : Config.parse env fs n flags = .ok cfg) :
    cfg = applyToml fs n flags toml (applyFlags n flags (Config.default_opts env fs)) := by
  unfold Config.parse at h
  simp only [hdec, Except.ok.injEq] at h
  exact h.symm

theorem parse_error_elim {env : Env} {fs : String → Bool} {n : Nat} {flags : Flags}
    {e : DecodeErr} (hdec : decodeFile flags.config = .error e) :
    Config.parse env fs n flags = .error e := by
  unfold Config.parse
  simp only [hdec]

theorem applyFlags_shape (n : Nat) (flags : Flags) (c : Config) :
    ∃ dw out2, applyFlags n flags c =
      { c with
        exclude := flags.exclude
        rustc_error_format := flags.rustc_error_format
        json_output := flags.json_output
        on_fail := flags.on_fail
        stage := flags.stage
        jobs := flags.jobs.map (threads_from_config n)
        cmd := flags.cmd
        incremental := flags.incremental
        dry_run := flags.dry_run
        keep_stage := flags.keep_stage
        bindir := "bin"
        deny_warnings := dw
        out := out2 } := by
  simp only [applyFlags]
  cases hd : flags.deny_warnings <;> split <;> exact ⟨_, _, rfl⟩

theorem default_opts_build (env : Env) (fs : String → Bool) :
    (Config.default_opts env fs).build = TargetSelection.from_user fs env.build := rfl

theorem default_opts_channel (env : Env) (fs : String → Bool) :
    (Config.default_opts env fs).channel = "dev" := rfl

theorem default_opts_ccache (env : Env) (fs : String → Bool) :
    (Config.default_opts env fs).ccache = none := rfl

theorem default_opts_verbose (env : Env) (fs : String → Bool) :
    (Config.default_opts env fs).verbose = 0 := rfl

theorem applyBuild_hosts (f : Flags) (b : Build) (c : Config) :
    (applyBuild f b c).hosts = c.hosts := rfl

theorem applyBuild_targets (f : Flags) (b : Build) (c : Config) :
    (applyBuild f b c).targets = c.targets := rfl

theorem applyBuild_skip (f : Flags) (b : Build) (c : Config) :
    (applyBuild f b c).skip_only_host_steps = c.skip_only_host_steps := rfl

theorem applyBuild_build (f : Flags) (b : Build) (c : Config) :
    (applyBuild f b c).build = c.build := rfl

theorem applyBuild_incremental (f : Flags) (b : Build) (c : Config) :
    (applyBuild f b c).incremental = c.incremental := rfl

theorem applyBuild_jobs (f : Flags) (b : Build) (c : Config) :
    (applyBuild f b c).jobs = c.jobs := rfl

theorem applyBuild_ccache (f : Flags) (b : Build) (c : Config) :
    (applyBuild f b c).ccache = c.ccache := rfl

theorem applyBuild_channel (f : Flags) (b : Build) (c : Config) :
    (applyBuild f b c).channel = c.channel := rfl

theorem applyBuild_verbose (f : Flags) (b : Build) (c : Config) :
    (applyBuild f b c).verbose = max (set c.verbose b.verbose) f.verbose := rfl

theorem applyInstall_hosts (i : Option Install) (c : Config) :
    (applyInstall i c).hosts = c.hosts := by cases i <;> rfl

theorem applyInstall_targets (i : Option Install) (c : Config) :
    (applyInstall i c).targets = c.targets := by cases i <;> rfl

theorem applyInstall_skip (i : Option Install) (c : Config) :
    (applyInstall i c).skip_only_host_steps = c.skip_only_host_steps := by cases i <;> rfl

theorem applyInstall_build (i : Option Install) (c : Config) :
    (applyInstall i c).build = c.build := by cases i <;> rfl

theorem applyInstall_incremental (i : Option Install) (c : Config) :
    (applyInstall i c).incremental = c.incremental := by cases i <;> rfl

theorem applyInstall_jobs (i : Option Install) (c : Config) :
    (applyInstall i c).jobs = c.jobs := by cases i <;> rfl

theorem applyInstall_ccache (i : Option Install) (c : Config) :
    (applyInstall i c).ccache = c.ccache := by cases i <;> rfl

theorem applyInstall_channel (i : Option Install) (c : Config) :
    (applyInstall i c).channel = c.channel := by cases i <;> rfl

theorem applyInstall_verbose (i : Option Install) (c : Config) :
    (applyInstall i c).verbose = c.verbose := by cases i <;> rfl

theorem applyLlvmConfig_hosts (l : Option Llvm) (c : Config) :
    (applyLlvmConfig l c).hosts = c.hosts := by
  cases l with
  | none => rfl
  | some l => simp only [applyLlvmConfig]; split <;> rfl

theorem applyLlvmConfig_targets (l : Option Llvm) (c : Config) :
    (applyLlvmConfig l c).targets = c.targets := by
  cases l with
  | none => rfl
  | some l => simp only [applyLlvmConfig]; split <;> rfl

theorem applyLlvmConfig_skip (l : Option Llvm) (c : Config) :
    (applyLlvmConfig l c).skip_only_host_steps = c.skip_only_host_steps := by
  cases l with
  | none => rfl
  | some l => simp only [applyLlvmConfig]; split <;> rfl

theorem applyLlvmConfig_build (l : Option Llvm) (c : Config) :
    (applyLlvmConfig l c).build = c.build := by
  cases l with
  | none => rfl
  | some l => simp only [applyLlvmConfig]; split <;> rfl

theorem applyLlvmConfig_incremental (l : Option Llvm) (c : Config) :
    (applyLlvmConfig l c).incremental = c.incremental := by
  cases l with
  | none => rfl
  | some l => simp only [applyLlvmConfig]; split <;> rfl

theorem applyLlvmConfig_jobs (l : Option Llvm) (c : Config) :
    (applyLlvmConfig l c).jobs = c.jobs := by
  cases l with
  | none => rfl
  | some l => simp only [applyLlvmConfig]; split <;> rfl

theorem applyLlvmConfig_channel (l : Option Llvm) (c : Config) :
    (applyLlvmConfig l c).channel = c.channel := by
  cases l with
  | none => rfl
  | some l => simp only [applyLlvmConfig]; split <;> rfl

theorem applyLlvmConfig_verbose (l : Option Llvm) (c : Config) :
    (applyLlvmConfig l c).verbose = c.verbose := by
  cases l with
  | none => rfl
  | some l => simp only [applyLlvmConfig]; split <;> rfl

theorem applyLlvmConfig_ccache (l : Llvm) (c : Config) :
    (applyLlvmConfig (some l) c).ccache =
      (match l.ccache with
       | some (.string s) => some s
       | some (.bool true) => some "ccache"
       | some (.bool false) => c.ccache
       | none => c.ccache) := by
  cases hc : l.ccache with
  | none => simp only [applyLlvmConfig, hc]
  | some sb =>
    cases sb with
    | string s => simp only [applyLlvmConfig, hc]
    | bool b => cases b <;> simp only [applyLlvmConfig, hc]

theorem applyRustConfig_hosts (n : Nat) (f : Flags) (r : Option Rust) (c : Config) :
    (applyRustConfig n f r c).hosts = c.hosts := by
  cases r with
  | none => rfl
  | some r => simp only [applyRustConfig]; split <;> split <;> rfl

theorem applyRustConfig_targets (n : Nat) (f : Flags) (r : Option Rust) (c : Config) :
    (applyRustConfig n f r c).targets = c.targets := by
  cases r with
  | none => rfl
  | some r => simp only [applyRustConfig]; split <;> split <;> rfl

theorem applyRustConfig_skip (n : Nat) (f : Flags) (r : Option Rust) (c : Config) :
    (applyRustConfig n f r c).skip_only_host_steps = c.skip_only_host_steps := by
  cases r with
  | none => rfl
  | some r => simp only [applyRustConfig]; split <;> split <;> rfl

theorem applyRustConfig_build (n : Nat) (f : Flags) (r : Option Rust) (c : Config) :
    (applyRustConfig n f r c).build = c.build := by
  cases r with
  | none => rfl
  | some r => simp only [applyRustConfig]; split <;> split <;> rfl

theorem applyRustConfig_jobs (n : Nat) (f : Flags) (r : Option Rust) (c : Config) :
    (applyRustConfig n f r c).jobs = c.jobs := by
  cases r with
  | none => rfl
  | some r => simp only [applyRustConfig]; split <;> split <;> rfl

theorem applyRustConfig_ccache (n : Nat) (f : Flags) (r : Option Rust) (c : Config) :
    (applyRustConfig n f r c).ccache = c.ccache := by
  cases r with
  | none => rfl
  | some r => simp only [applyRustConfig]; split <;> split <;> rfl

theorem applyRustConfig_verbose (n : Nat) (f : Flags) (r : Option Rust) (c : Config) :
    (applyRustConfig n f r c).verbose = c.verbose := by
  cases r with
  | none => rfl
  | some r => simp only [applyRustConfig]; split <;> split <;> rfl

theorem applyRustConfig_incremental (n : Nat) (f : Flags) (r : Rust) (c : Config) :
    (applyRustConfig n f (some r) c).incremental =
      (if r.incremental = some true then true else c.incremental) := by
  by_cases hinc : r.incremental = some true
  · simp only [applyRustConfig, if_pos hinc]; split <;> rfl
  · simp only [applyRustConfig, if_neg hinc]; split <;> rfl

theorem applyRustConfig_channel (n : Nat) (f : Flags) (r : Rust) (c : Config) :
    (applyRustConfig n f (some r) c).channel = set c.channel r.channel := by
  simp only [applyRustConfig]; split <;> split <;> rfl

theorem applyOneTarget_shape (fs : String → Bool) (c : Config) (p : String × TomlTarget) :
    ∃ m, applyOneTarget fs c p = { c with target_config := m } :=
  ⟨_, rfl⟩

theorem foldl_targets_shape (fs : String → Bool) :
    ∀ (ts : List (String × TomlTarget)) (c : Config),
      ∃ m, ts.foldl (applyOneTarget fs) c = { c with target_config := m }
  | [], c => ⟨c.target_config, rfl⟩
  | p :: ps, c => by
    obtain ⟨m, hm⟩ := foldl_targets_shape fs ps (applyOneTarget fs c p)
    refine ⟨m, ?_⟩
    rw [List.foldl_cons, hm]
    rfl

theorem applyTargetSection_shape (fs : String → Bool)
    (t : Option (List (String × TomlTarget))) (c : Config) :
    ∃ m, applyTargetSection fs t c = { c with target_config := m } := by
  cases t with
  | none => exact ⟨c.target_config, rfl⟩
  | some ts => exact foldl_targets_shape fs ts c

theorem applyTargetSection_hosts (fs : String → Bool)
    (t : Option (List (String × TomlTarget))) (c : Config) :
    (applyTargetSection fs t c).hosts = c.hosts := by
  obtain ⟨m, hm⟩ := applyTargetSection_shape fs t c
  rw [hm]

theorem applyTargetSection_targets (fs : String → Bool)
    (t : Option (List (String × TomlTarget))) (c : Config) :
    (applyTargetSection fs t c).targets = c.targets := by
  obtain ⟨m, hm⟩ := applyTargetSection_shape fs t c
  rw [hm]

theorem applyTargetSection_skip (fs : String → Bool)
    (t : Option (List (String × TomlTarget))) (c : Config) :
    (applyTargetSection fs t c).skip_only_host_steps = c.skip_only_host_steps := by
  obtain ⟨m, hm⟩ := applyTargetSection_shape fs t c
  rw [hm]

theorem applyTargetSection_build (fs : String → Bool)
    (t : Option (List (String × TomlTarget))) (c : Config) :
    (applyTargetSection fs t c).build = c.build := by
  obtain ⟨m, hm⟩ := applyTargetSection_shape fs t c
  rw [hm]

theorem applyTargetSection_incremental (fs : String → Bool)
    (t : Option (List (String × TomlTarget))) (c : Config) :
    (applyTargetSection fs t c).incremental = c.incremental := by
  obtain ⟨m, hm⟩ := applyTargetSection_shape fs t c
  rw [hm]

theorem applyTargetSection_jobs (fs : String → Bool)
    (t : Option (List (String × TomlTarget))) (c : Config) :
    (applyTargetSection fs t c).jobs = c.jobs := by
  obtain ⟨m, hm⟩ := applyTargetSection_shape fs t c
  rw [hm]

theorem applyTargetSection_ccache (fs : String → Bool)
    (t : Option (List (String × TomlTarget))) (c : Config) :
    (applyTargetSection fs t c).ccache = c.ccache := by
  obtain ⟨m, hm⟩ := applyTargetSection_shape fs t c
  rw [hm]

theorem applyTargetSection_channel (fs : String → Bool)
    (t : Option (List (String × TomlTarget))) (c : Config) :
    (applyTargetSection fs t c).channel = c.channel := by
  obtain ⟨m, hm⟩ := applyTargetSection_shape fs t c
  rw [hm]

theorem applyTargetSection_verbose (fs : String → Bool)
    (t : Option (List (String × TomlTarget))) (c : Config) :
    (applyTargetSection fs t c).verbose = c.verbose := by
  obtain ⟨m, hm⟩ := applyTargetSection_shape fs t c
  rw [hm]

theorem applyDist_hosts (t : Option Dist) (c : Config) :
    (applyDist t c).hosts = c.hosts := by cases t <;> rfl

theorem applyDist_targets (t : Option Dist) (c : Config) :
    (applyDist t c).targets = c.targets := by cases t <;> rfl

theorem applyDist_skip (t : Option Dist) (c : Config) :
    (applyDist t c).skip_only_host_steps = c.skip_only_host_steps := by cases t <;> rfl

theorem applyDist_build (t : Option Dist) (c : Config) :
    (applyDist t c).build = c.build := by cases t <;> rfl

theorem applyDist_incremental (t : Option Dist) (c : Config) :
    (applyDist t c).incremental = c.incremental := by cases t <;> rfl

theorem applyDist_jobs (t : Option Dist) (c : Config) :
    (applyDist t c).jobs = c.jobs := by cases t <;> rfl

theorem applyDist_ccache (t : Option Dist) (c : Config) :
    (applyDist t c).ccache = c.ccache := by cases t <;> rfl

theorem applyDist_channel (t : Option Dist) (c : Config) :
    (applyDist t c).channel = c.channel := by cases t <;> rfl

theorem applyDist_verbose (t : Option Dist) (c : Config) :
    (applyDist t c).verbose = c.verbose := by cases t <;> rfl

theorem inferDefaults_hosts (b : Build) (d : Deferred) (c : Config) :
    (inferDefaults b d c).hosts = c.hosts := rfl

theorem inferDefaults_targets (b : Build) (d : Deferred) (c : Config) :
    (inferDefaults b d c).targets = c.targets := rfl

theorem inferDefaults_skip (b : Build) (d : Deferred) (c : Config) :
    (inferDefaults b d c).skip_only_host_steps = c.skip_only_host_steps := rfl

theorem inferDefaults_build (b : Build) (d : Deferred) (c : Config) :
    (inferDefaults b d c).build = c.build := rfl

theorem inferDefaults_incremental (b : Build) (d : Deferred) (c : Config) :
    (inferDefaults b d c).incremental = c.incremental := rfl

theorem inferDefaults_jobs (b : Build) (d : Deferred) (c : Config) :
    (inferDefaults b d c).jobs = c.jobs := rfl

theorem inferDefaults_ccache (b : Build) (d : Deferred) (c : Config) :
    (inferDefaults b d c).ccache = c.ccache := rfl

theorem inferDefaults_channel (b : Build) (d : Deferred) (c : Config) :
    (inferDefaults b d c).channel = c.channel := rfl

theorem inferDefaults_verbose (b : Build) (d : Deferred) (c : Config) :
    (inferDefaults b d c).verbose = c.verbose := rfl

theorem inferDefaults_ignore_git (b : Build) (d : Deferred) (c : Config) :
    (inferDefaults b d c).ignore_git = d.ignore_git.getD (decide (c.channel = "dev")) := rfl

theorem inferDefaults_dl_rustc (b : Build) (d : Deferred) (c : Config) :
    (inferDefaults b d c).rust_debuginfo_level_rustc =
      (Option.or d.debuginfo_level_rustc d.debuginfo_level).getD
        (if d.debug = some true then 1 else 0) := rfl

theorem inferDefaults_dl_std (b : Build) (d : Deferred) (c : Config) :
    (inferDefaults b d c).rust_debuginfo_level_std =
      (Option.or d.debuginfo_level_std d.debuginfo_level).getD
        (if d.debug = some true then 1 else 0) := rfl

theorem inferDefaults_dl_tools (b : Build) (d : Deferred) (c : Config) :
    (inferDefaults b d c).rust_debuginfo_level_tools =
      (Option.or d.debuginfo_level_tools d.debuginfo_level).getD
        (if d.debug = some true then 1 else 0) := rfl

theorem inferDefaults_dl_tests (b : Build) (d : Deferred) (c : Config) :
    (inferDefaults b d c).rust_debuginfo_level_tests =
      d.debuginfo_level_tests.getD 0 := rfl

theorem applyLlvmDeferred_debug (l : Option Llvm) (d : Deferred) :
    (applyLlvmDeferred l d).debug = d.debug := by cases l <;> rfl

theorem applyLlvmDeferred_dl (l : Option Llvm) (d : Deferred) :
    (applyLlvmDeferred l d).debuginfo_level = d.debuginfo_level := by cases l <;> rfl

theorem applyLlvmDeferred_dl_rustc (l : Option Llvm) (d : Deferred) :
    (applyLlvmDeferred l d).debuginfo_level_rustc = d.debuginfo_level_rustc := by
  cases l <;> rfl

theorem applyLlvmDeferred_dl_std (l : Option Llvm) (d : Deferred) :
    (applyLlvmDeferred l d).debuginfo_level_std = d.debuginfo_level_std := by cases l <;> rfl

theorem applyLlvmDeferred_dl_tools (l : Option Llvm) (d : Deferred) :
    (applyLlvmDeferred l d).debuginfo_level_tools = d.debuginfo_level_tools := by
  cases l <;> rfl

theorem applyLlvmDeferred_dl_tests (l : Option Llvm) (d : Deferred) :
    (applyLlvmDeferred l d).debuginfo_level_tests = d.debuginfo_level_tests := by
  cases l <;> rfl

theorem applyLlvmDeferred_ignore_git (l : Option Llvm) (d : Deferred) :
    (applyLlvmDeferred l d).ignore_git = d.ignore_git := by cases l <;> rfl

theorem applyRustDeferred_debug (r : Option Rust) (d : Deferred) :
    (applyRustDeferred r d).debug = (match r with | some ru => ru.debug | none => d.debug) := by
  cases r <;> rfl

theorem applyRustDeferred_dl (r : Option Rust) (d : Deferred) :
    (applyRustDeferred r d).debuginfo_level =
      (match r with | some ru => ru.debuginfo_level | none => d.debuginfo_level) := by
  cases r <;> rfl

theorem applyRustDeferred_dl_rustc (r : Option Rust) (d : Deferred) :
    (applyRustDeferred r d).debuginfo_level_rustc =
      (match r with | some ru => ru.debuginfo_level_rustc | none => d.debuginfo_level_rustc) := by
  cases r <;> rfl

theorem applyRustDeferred_dl_std (r : Option Rust) (d : Deferred) :
    (applyRustDeferred r d).debuginfo_level_std =
      (match r with | some ru => ru.debuginfo_level_std | none => d.debuginfo_level_std) := by
  cases r <;> rfl

theorem applyRustDeferred_dl_tools (r : Option Rust) (d : Deferred) :
    (applyRustDeferred r d).debuginfo_level_tools =
      (match r with | some ru => ru.debuginfo_level_tools | none => d.debuginfo_level_tools) := by
  cases r <;> rfl

theorem applyRustDeferred_dl_tests (r : Option Rust) (d : Deferred) :
    (applyRustDeferred r d).debuginfo_level_tests =
      (match r with | some ru => ru.debuginfo_level_tests | none => d.debuginfo_level_tests) := by
  cases r <;> rfl

theorem applyRustDeferred_ignore_git (r : Option Rust) (d : Deferred) :
    (applyRustDeferred r d).ignore_git =
      (match r with | some ru => ru.ignore_git | none => d.ignore_git) := by
  cases r <;> rfl

/-! The claims. -/

/-- C1: in resolve, the hosts list is the command-line host list if present,
else the document's `build.host` list (each entry converted to a Target
Selection), else the singleton build host; the targets list is the
command-line target list if present, else the document's `build.target` list,
else the resolved hosts list; and the skip-host-only-steps flag is set true
exactly when neither source supplied a host list and at least one source
supplied a target list. -/
theorem c1_host_target_resolution (env : Env) (fs : String → Bool) (n : Nat)
    (flags : Flags) (toml : TomlConfig) (cfg : Config)
    (hdec : decodeFile flags.config = .ok toml)
    (h : Config.parse env fs n flags = .ok cfg) :
    cfg.build = TargetSelection.from_user fs env.build
    ∧ cfg.hosts =
        (match flags.host with
         | some arg_host => arg_host
         | none =>
           match (toml.build.getD {}).host with
           | some file_host => file_host.map (TargetSelection.from_user fs)
           | none => [TargetSelection.from_user fs env.build])
    ∧ cfg.targets =
        (match flags.target with
         | some arg_target => arg_target
         | none =>
           match (toml.build.getD {}).target with
           | some file_target => file_target.map (TargetSelection.from_user fs)
           | none => cfg.hosts)
    ∧ cfg.skip_only_host_steps =
        (!((toml.build.getD {}).host.isSome || flags.host.isSome)
          && ((toml.build.getD {}).target.isSome || flags.target.isSome)) := by
  have hcfg := parse_ok_elim hdec h
  obtain ⟨dw, out2, hAF⟩ := applyFlags_shape n flags (Config.default_opts env fs)
  rw [hAF] at hcfg
  have hbuild : cfg.build = TargetSelection.from_user fs env.build := by
    rw [hcfg]
    simp only [applyToml, inferDefaults_build, applyDist_build, applyTargetSection_build,
      applyRustConfig_build, applyLlvmConfig_build, applyInstall_build, applyBuild_build,
      default_opts_build]
  have hhosts : cfg.hosts =
      (match flags.host with
       | some arg_host => arg_host
       | none =>
         match (toml.build.getD {}).host with
         | some file_host => file_host.map (TargetSelection.from_user fs)
         | none => [TargetSelection.from_user fs env.build]) := by
    rw [hcfg]
    simp only [applyToml, inferDefaults_hosts, applyDist_hosts, applyTargetSection_hosts,
      applyRustConfig_hosts, applyLlvmConfig_hosts, applyInstall_hosts, applyBuild_hosts,
      default_opts_build]
  have htargets : cfg.targets =
      (match flags.target with
       | some arg_target => arg_target
       | none =>
         match (toml.build.getD {}).target with
         | some file_target => file_target.map (TargetSelection.from_user fs)
         | none => cfg.hosts) := by
    rw [hhosts, hcfg]
    simp only [applyToml, inferDefaults_targets, applyDist_targets, applyTargetSection_targets,
      applyRustConfig_targets, applyLlvmConfig_targets, applyInstall_targets, applyBuild_targets,
      default_opts_build]
  have hskip : cfg.skip_only_host_steps =
      (!((toml.build.getD {}).host.isSome || flags.host.isSome)
        && ((toml.build.getD {}).target.isSome || flags.target.isSome)) := by
    rw [hcfg]
    simp only [applyToml, inferDefaults_skip, applyDist_skip, applyTargetSection_skip,
      applyRustConfig_skip, applyLlvmConfig_skip, applyInstall_skip, applyBuild_skip]
  exact ⟨hbuild, hhosts, htargets, hskip⟩

/-- C1 witness: with overrides supplying only a target list and no document,
the hosts resolve to the build host alone, the targets to the supplied list,
and the skip flag is set. -/
theorem c1_witness :
    cfg1.build = TargetSelection.from_user fs0 env0.build
    ∧ cfg1.hosts =
        (match flags1.host with
         | some arg_host => arg_host
         | none =>
           match (({} : TomlConfig).build.getD {}).host with
           | some file_host => file_host.map (TargetSelection.from_user fs0)
           | none => [TargetSelection.from_user fs0 env0.build])
    ∧ cfg1.targets =
        (match flags1.target with
         | some arg_target => arg_target
         | none =>
           match (({} : TomlConfig).build.getD {}).target with
           | some file_target => file_target.map (TargetSelection.from_user fs0)
           | none => cfg1.hosts)
    ∧ cfg1.skip_only_host_steps =
        (!((({} : TomlConfig).build.getD {}).host.isSome || flags1.host.isSome)
          && ((({} : TomlConfig).build.getD {}).target.isSome || flags1.target.isSome)) :=
  c1_host_target_resolution env0 fs0 4 flags1 {} cfg1 rfl (by rfl)

theorem set_eq_getD {α : Type} (x : α) (v : Option α) : set x v = v.getD x := by
  cases v <;> rfl

theorem applyRustConfig_none (n : Nat) (f : Flags) (c : Config) :
    applyRustConfig n f none c = c := rfl

theorem applyLlvmConfig_none (c : Config) : applyLlvmConfig none c = c := rfl

/-- C3: for each of the compiler, standard-library and tools components the
resolved debuginfo level is the explicit per-component document value, else the
explicit global document value, else 1 when debug mode was explicitly true and
0 otherwise; the test level is the explicit per-component value or 0, never
inheriting the global level or the debug-mode default. -/
theorem c3_debuginfo_levels (env : Env) (fs : String → Bool) (n : Nat)
    (flags : Flags) (toml : TomlConfig) (cfg : Config)
    (hdec : decodeFile flags.config = .ok toml)
    (h : Config.parse env fs n flags = .ok cfg) :
    cfg.rust_debuginfo_level_rustc =
      (Option.or (toml.rust.getD {}).debuginfo_level_rustc
          (toml.rust.getD {}).debuginfo_level).getD
        (if (toml.rust.getD {}).debug = some true then 1 else 0)
    ∧ cfg.rust_debuginfo_level_std =
      (Option.or (toml.rust.getD {}).debuginfo_level_std
          (toml.rust.getD {}).debuginfo_level).getD
        (if (toml.rust.getD {}).debug = some true then 1 else 0)
    ∧ cfg.rust_debuginfo_level_tools =
      (Option.or (toml.rust.getD {}).debuginfo_level_tools
          (toml.rust.getD {}).debuginfo_level).getD
        (if (toml.rust.getD {}).debug = some true then 1 else 0)
    ∧ cfg.rust_debuginfo_level_tests =
      (toml.rust.getD {}).debuginfo_level_tests.getD 0 := by
  have hcfg := parse_ok_elim hdec h
  rw [hcfg]
  simp only [applyToml, inferDefaults_dl_rustc, inferDefaults_dl_std, inferDefaults_dl_tools,
    inferDefaults_dl_tests, applyRustDeferred_dl_rustc, applyRustDeferred_dl_std,
    applyRustDeferred_dl_tools, applyRustDeferred_dl_tests, applyRustDeferred_dl,
    applyRustDeferred_debug, applyLlvmDeferred_dl_rustc, applyLlvmDeferred_dl_std,
    applyLlvmDeferred_dl_tools, applyLlvmDeferred_dl_tests, applyLlvmDeferred_dl,
    applyLlvmDeferred_debug]
  cases htr : toml.rust <;> simp [htr]

/-- C3 witness: debug mode explicitly true and one explicit per-component
level resolve as described. -/
theorem c3_witness :
    cfg3.rust_debuginfo_level_rustc =
      (Option.or (toml3.rust.getD {}).debuginfo_level_rustc
          (toml3.rust.getD {}).debuginfo_level).getD
        (if (toml3.rust.getD {}).debug = some true then 1 else 0)
    ∧ cfg3.rust_debuginfo_level_std =
      (Option.or (toml3.rust.getD {}).debuginfo_level_std
          (toml3.rust.getD {}).debuginfo_level).getD
        (if (toml3.rust.getD {}).debug = some true then 1 else 0)
    ∧ cfg3.rust_debuginfo_level_tools =
      (Option.or (toml3.rust.getD {}).debuginfo_level_tools
          (toml3.rust.getD {}).debuginfo_level).getD
        (if (toml3.rust.getD {}).debug = some true then 1 else 0)
    ∧ cfg3.rust_debuginfo_level_tests =
      (toml3.rust.getD {}).debuginfo_level_tests.getD 0 :=
  c3_debuginfo_levels env0 fs0 4 flags3 toml3 cfg3 (by rfl) (by rfl)

/-- C5: the resolved verbosity level is the maximum of the command-line
verbosity and the document's verbosity (0 when the document supplies none),
rather than one source overriding the other. -/
theorem c5_verbose (env : Env) (fs : String → Bool) (n : Nat)
    (flags : Flags) (toml : TomlConfig) (cfg : Config)
    (hdec : decodeFile flags.config = .ok toml)
    (h : Config.parse env fs n flags = .ok cfg) :
    cfg.verbose = max flags.verbose (((toml.build.getD {}).verbose).getD 0) := by
  have hcfg := parse_ok_elim hdec h
  obtain ⟨dw, out2, hAF⟩ := applyFlags_shape n flags (Config.default_opts env fs)
  rw [hAF] at hcfg
  rw [hcfg]
  simp only [applyToml, inferDefaults_verbose, applyDist_verbose, applyTargetSection_verbose,
    applyRustConfig_verbose, applyLlvmConfig_verbose, applyInstall_verbose, applyBuild_verbose,
    set_eq_getD, default_opts_verbose]
  exact Nat.max_comm _ _

/-- C5 witness: command-line verbosity 1 and document verbosity 3 resolve to
their maximum. -/
theorem c5_witness :
    cfg5.verbose = max flags5.verbose (((toml5.build.getD {}).verbose).getD 0) :=
  c5_verbose env0 fs0 4 flags5 toml5 cfg5 (by rfl) (by rfl)

/-- C4: the resolved git-ignore flag is the explicit document value when one
is supplied, else it is true iff the resolved release channel is `"dev"`; the
channel itself defaults to `"dev"` when no source set it. -/
theorem c4_ignore_git (env : Env) (fs : String → Bool) (n : Nat)
    (flags : Flags) (toml : TomlConfig) (cfg : Config)
    (hdec : decodeFile flags.config = .ok toml)
    (h : Config.parse env fs n flags = .ok cfg) :
    cfg.channel = ((toml.rust.getD {}).channel).getD "dev"
    ∧ cfg.ignore_git =
        ((toml.rust.getD {}).ignore_git).getD (decide (cfg.channel = "dev")) := by
  have hcfg := parse_ok_elim hdec h
  obtain ⟨dw, out2, hAF⟩ := applyFlags_shape n flags (Config.default_opts env fs)
  rw [hAF] at hcfg
  have hch : cfg.channel = ((toml.rust.getD {}).channel).getD "dev" := by
    rw [hcfg]
    simp only [applyToml, inferDefaults_channel, applyDist_channel, applyTargetSection_channel]
    cases htr : toml.rust with
    | none =>
      simp only [applyRustConfig_none, applyLlvmConfig_channel, applyInstall_channel,
        applyBuild_channel, default_opts_channel]
      rfl
    | some ru =>
      rw [applyRustConfig_channel]
      simp only [applyLlvmConfig_channel, applyInstall_channel, applyBuild_channel,
        set_eq_getD, default_opts_channel]
      rfl
  have hig : cfg.ignore_git =
      ((toml.rust.getD {}).ignore_git).getD
        (decide ((((toml.rust.getD {}).channel).getD "dev") = "dev")) := by
    rw [hcfg]
    simp only [applyToml, inferDefaults_ignore_git, applyRustDeferred_ignore_git,
      applyLlvmDeferred_ignore_git, applyDist_channel, applyTargetSection_channel]
    cases htr : toml.rust with
    | none =>
      simp only [applyRustConfig_none, applyLlvmConfig_channel, applyInstall_channel,
        applyBuild_channel, default_opts_channel]
      rfl
    | some ru =>
      rw [applyRustConfig_channel]
      simp only [applyLlvmConfig_channel, applyInstall_channel, applyBuild_channel,
        set_eq_getD, default_opts_channel]
      rfl
  refine ⟨hch, ?_⟩
  rw [hig, ← hch]

/-- C4 witness: channel explicitly set to `"stable"` and no explicit git-ignore
value resolve to git-ignore false. -/
theorem c4_witness :
    cfg4.channel = ((toml4.rust.getD {}).channel).getD "dev"
    ∧ cfg4.ignore_git =
        ((toml4.rust.getD {}).ignore_git).getD (decide (cfg4.channel = "dev")) :=
  c4_ignore_git env0 fs0 4 flags4 toml4 cfg4 (by rfl) (by rfl)

/-- C7: a document path string for the cache setting resolves to that string,
boolean true to the fixed tool name `"ccache"`, and boolean false or absence
to no cache at all. -/
theorem c7_ccache (env : Env) (fs : String → Bool) (n : Nat)
    (flags : Flags) (toml : TomlConfig) (cfg : Config)
    (hdec : decodeFile flags.config = .ok toml)
    (h : Config.parse env fs n flags = .ok cfg) :
    cfg.ccache =
      (match toml.llvm with
       | some l =>
         (match l.ccache with
          | some (.string s) => some s
          | some (.bool true) => some "ccache"
          | some (.bool false) => none
          | none => none)
       | none => none) := by
  have hcfg := parse_ok_elim hdec h
  obtain ⟨dw, out2, hAF⟩ := applyFlags_shape n flags (Config.default_opts env fs)
  rw [hAF] at hcfg
  rw [hcfg]
  simp only [applyToml, inferDefaults_ccache, applyDist_ccache, applyTargetSection_ccache,
    applyRustConfig_ccache]
  cases htl : toml.llvm with
  | none =>
    simp only [applyLlvmConfig_none, applyInstall_ccache, applyBuild_ccache,
      default_opts_ccache]
  | some l =>
    rw [applyLlvmConfig_ccache]
    simp only [applyInstall_ccache, applyBuild_ccache, default_opts_ccache]

/-- C7 witness: a document setting the cache flag to boolean true resolves the
cache setting to `"ccache"`. -/
theorem c7_witness :
    cfg7.ccache =
      (match toml7.llvm with
       | some l =>
         (match l.ccache with
          | some (.string s) => some s
          | some (.bool true) => some "ccache"
          | some (.bool false) => none
          | none => none)
       | none => none) :=
  c7_ccache env0 fs0 4 flags7 toml7 cfg7 (by rfl) (by rfl)

/-- C8: a job count of literal zero resolves to the host parallelism (a
positive value) and any nonzero count resolves to itself; the resolution is
performed when the command-line overrides are applied, and the final record
still carries exactly that resolved value. -/
theorem c8_jobs (env : Env) (fs : String → Bool) (numCpus : Nat)
    (flags : Flags) (cfg : Config) (m : Nat)
    (h0 : 0 < numCpus) (hm : m ≠ 0)
    (h : Config.parse env fs numCpus flags = .ok cfg) :
    threads_from_config numCpus 0 = numCpus
    ∧ 0 < threads_from_config numCpus 0
    ∧ threads_from_config numCpus m = m
    ∧ (applyFlags numCpus flags (Config.default_opts env fs)).jobs
        = flags.jobs.map (threads_from_config numCpus)
    ∧ cfg.jobs = flags.jobs.map (threads_from_config numCpus) := by
  refine ⟨rfl, h0, ?_, ?_, ?_⟩
  · cases m with
    | zero => exact absurd rfl hm
    | succ k => rfl
  · obtain ⟨dw, out2, hAF⟩ := applyFlags_shape numCpus flags (Config.default_opts env fs)
    rw [hAF]
  · cases hdec : decodeFile flags.config with
    | error e =>
      rw [parse_error_elim hdec] at h
      exact absurd h (by simp)
    | ok toml =>
      have hcfg := parse_ok_elim hdec h
      obtain ⟨dw, out2, hAF⟩ := applyFlags_shape numCpus flags (Config.default_opts env fs)
      rw [hAF] at hcfg
      rw [hcfg]
      simp only [applyToml, inferDefaults_jobs, applyDist_jobs, applyTargetSection_jobs,
        applyRustConfig_jobs, applyLlvmConfig_jobs, applyInstall_jobs, applyBuild_jobs]

/-- C8 witness: with host parallelism 4, a job count of 0 resolves to 4 and a
count of 7 resolves to 7. -/
theorem c8_witness :
    threads_from_config 4 0 = 4
    ∧ 0 < threads_from_config 4 0
    ∧ threads_from_config 4 7 = 7
    ∧ (applyFlags 4 flags8 (Config.default_opts env0 fs0)).jobs
        = flags8.jobs.map (threads_from_config 4)
    ∧ cfg8.jobs = flags8.jobs.map (threads_from_config 4) :=
  c8_jobs env0 fs0 4 flags8 cfg8 7 (by decide) (by decide) (by rfl)

/-- C10: the resolved incremental flag is true iff the command-line flag is
true or the document's language section explicitly sets incremental to true;
a document value of false cannot clear a command-line request. -/
theorem c10_incremental (env : Env) (fs : String → Bool) (n : Nat)
    (flags : Flags) (toml : TomlConfig) (cfg : Config)
    (hdec : decodeFile flags.config = .ok toml)
    (h : Config.parse env fs n flags = .ok cfg) :
    cfg.incremental =
      (flags.incremental || decide ((toml.rust.getD {}).incremental = some true)) := by
  have hcfg := parse_ok_elim hdec h
  obtain ⟨dw, out2, hAF⟩ := applyFlags_shape n flags (Config.default_opts env fs)
  rw [hAF] at hcfg
  rw [hcfg]
  simp only [applyToml, inferDefaults_incremental, applyDist_incremental,
    applyTargetSection_incremental]
  cases htr : toml.rust with
  | none =>
    simp only [applyRustConfig_none, applyLlvmConfig_incremental, applyInstall_incremental,
      applyBuild_incremental]
    simp
  | some ru =>
    rw [applyRustConfig_incremental]
    simp only [applyLlvmConfig_incremental, applyInstall_incremental, applyBuild_incremental]
    by_cases hinc : ru.incremental = some true
    · simp [hinc]
    · simp [hinc]

/-- C10 witness: a command line without the incremental flag and a document
enabling incremental resolve to incremental true. -/
theorem c10_witness :
    cfg10.incremental =
      (flags10.incremental || decide ((toml10.rust.getD {}).incremental = some true)) :=
  c10_incremental env0 fs0 4 flags10 toml10 cfg10 (by rfl) (by rfl)

/-- C6 counterexample: two Target Selections with equal canonical triples but
different specification-file components have equal triple strings yet are not
equal, so the file component does affect equality. -/
theorem c6_counterexample :
    (({ triple := "x86_64-foo", file := none } : TargetSelection).triple
        = ({ triple := "x86_64-foo", file := some "x86_64-foo.json" } : TargetSelection).triple)
    ∧ ({ triple := "x86_64-foo", file := none } : TargetSelection)
        ≠ ({ triple := "x86_64-foo", file := some "x86_64-foo.json" } : TargetSelection) := by
  refine ⟨rfl, ?_⟩
  decide

/-- C6 amended: two Target Selections are equal iff their canonical triple
strings are equal AND their optional specification-file components are equal
(the derived equality compares the pair, not the triple alone). -/
theorem c6_eq_iff (a b : TargetSelection) :
    a = b ↔ a.triple = b.triple ∧ a.file = b.file := by
  cases a with
  | mk at_ af =>
    cases b with
    | mk bt bf => simp [TargetSelection.mk.injEq]

/-- C9: the contains, starts-with and ends-with predicates of a Target
Selection are exactly the corresponding string predicates applied to the
triple, so two selections with equal triples but different file components
give identical results for all three predicates. -/
theorem c9_substring_predicates (t1 t2 : TargetSelection) (needle : String)
    (h : t1.triple = t2.triple) :
    t1.contains needle = strContains t1.triple needle
    ∧ t1.starts_with needle = t1.triple.startsWith needle
    ∧ t1.ends_with needle = t1.triple.endsWith needle
    ∧ t1.contains needle = t2.contains needle
    ∧ t1.starts_with needle = t2.starts_with needle
    ∧ t1.ends_with needle = t2.ends_with needle := by
  refine ⟨rfl, rfl, rfl, ?_, ?_, ?_⟩ <;>
    simp only [TargetSelection.contains, TargetSelection.starts_with,
      TargetSelection.ends_with, h]

/-- C9 witness: two selections sharing the triple `"a-b"` but with different
file components answer the three predicates identically. -/
theorem c9_witness :
    TargetSelection.contains { triple := "a-b", file := none } "a"
      = strContains ({ triple := "a-b", file := none } : TargetSelection).triple "a"
    ∧ TargetSelection.starts_with { triple := "a-b", file := none } "a"
      = String.startsWith ({ triple := "a-b", file := none } : TargetSelection).triple "a"
    ∧ TargetSelection.ends_with { triple := "a-b", file := none } "a"
      = String.endsWith ({ triple := "a-b", file := none } : TargetSelection).triple "a"
    ∧ TargetSelection.contains { triple := "a-b", file := none } "a"
      = TargetSelection.contains { triple := "a-b", file := some "f.json" } "a"
    ∧ TargetSelection.starts_with { triple := "a-b", file := none } "a"
      = TargetSelection.starts_with { triple := "a-b", file := some "f.json" } "a"
    ∧ TargetSelection.ends_with { triple := "a-b", file := none } "a"
      = TargetSelection.ends_with { triple := "a-b", file := some "f.json" } "a" :=
  c9_substring_predicates { triple := "a-b", file := none }
    { triple := "a-b", file := some "f.json" } "a" rfl

/-- C2: a malformed document fails resolution with the distinct syntax error;
a document containing a key not in the schema fails resolution as a whole, so
no resolved record is produced; and a document containing only recognized keys
never fails with an unknown-field error. -/
theorem c2_document_validation (env : Env) (fs : String → Bool) (n : Nat)
    (flags : Flags) (d : DocText) :
    (d = DocText.malformed →
      Config.parse env fs n { flags with config := some d } = .error .syntaxErr)
    ∧ (d.hasUnknownKey = true →
      ∃ e, Config.parse env fs n { flags with config := some d } = .error e)
    ∧ (d.hasUnknownKey = false →
      ∀ k, Config.parse env fs n { flags with config := some d }
        ≠ .error (.unknownField k)) := by
  refine ⟨?_, ?_, ?_⟩
  · intro hd
    subst hd
    exact parse_error_elim rfl
  · intro hunk
    obtain ⟨e, he⟩ := decode_error_of_hasUnknownKey hunk
    exact ⟨e, parse_error_elim he⟩
  · intro hunk k hcontra
    cases hdec : decodeFile ({ flags with config := some d } : Flags).config with
    | ok toml =>
      unfold Config.parse at hcontra
      simp only [hdec] at hcontra
      exact absurd hcontra (by simp)
    | error e =>
      rw [parse_error_elim hdec] at hcontra
      simp only [Except.error.injEq] at hcontra
      rw [hcontra] at hdec
      exact decode_ne_unknownField hunk k hdec

/-- C2 witness: a malformed document yields the syntax error, a document with
an unknown key in the `[rust]` section fails, and a document with only
recognized keys never reports an unknown field. -/
theorem c2_witness :
    (Config.parse env0 fs0 4 { config := some DocText.malformed } = .error .syntaxErr)
    ∧ (∃ e, Config.parse env0 fs0 4 { config := some docBad } = .error e)
    ∧ (∀ k, Config.parse env0 fs0 4 { config := some docGood }
        ≠ .error (.unknownField k)) :=
  ⟨(c2_document_validation env0 fs0 4 {} DocText.malformed).1 rfl,
   (c2_document_validation env0 fs0 4 {} docBad).2.1 (by rfl),
   (c2_document_validation env0 fs0 4 {} docGood).2.2 (by rfl)⟩

end Bootstrap
